import Mathlib

/-!
Verification of the calendar-provider core of the janus repository: the
canonical recurrence model, the RFC 5545 RRULE encoder, the Graph-native
recurrence builder, both adapters' event/reminder mappings and partial-update
payload builders, the token-lifecycle cache policy, and the provider registry.
Definitions are shallow embeddings of the TypeScript sources in
`src/providers/calendar` (google.ts, outlook.ts, types.ts, index.ts) and of the
caller-side validation module; each definition's doc comment names the source
it embeds.
-/

namespace Janus

/-- TS union `RecurrenceFrequency` in `src/providers/calendar/types.ts`
("daily" | "weekly" | "monthly" | "yearly"). -/
inductive RecurrenceFrequency
  | daily
  | weekly
  | monthly
  | yearly
  deriving DecidableEq, Repr

/-- TS union `Weekday` in types.ts; the runtime values are the RFC 5545
two-letter codes "MO" .. "SU". -/
inductive Weekday
  | mo
  | tu
  | we
  | th
  | fr
  | sa
  | su
  deriving DecidableEq, Repr

/-- The runtime string value of a `Weekday` (the TS member values). -/
def Weekday.code : Weekday → String
  | .mo => "MO"
  | .tu => "TU"
  | .we => "WE"
  | .th => "TH"
  | .fr => "FR"
  | .sa => "SA"
  | .su => "SU"

/-- TS union `RecurrenceEnd` in types.ts: `{type: "count"} | {type: "until"} |
{type: "forever"}`. -/
inductive RecurrenceEnd
  | count (count : Nat)
  | «until» (untilValue : String)
  | forever
  deriving DecidableEq, Repr

/-- TS interface `RecurrenceRule` in types.ts. The TS `end` field is named
`recEnd` (`end` is a Lean keyword). Optional TS array fields are
modelled as plain lists: every consumer in the source guards them with
`x && x.length > 0`, which treats an absent and an empty array identically. -/
structure RecurrenceRule where
  frequency : RecurrenceFrequency
  interval : Option Nat
  recEnd : Option RecurrenceEnd
  byDay : List Weekday
  byMonthDay : List Nat
  byMonth : List Nat
  deriving DecidableEq, Repr

/-- The inline `freqMap` of `buildRruleString` (google.ts lines 26-31). -/
def rruleFreqMap : RecurrenceFrequency → String
  | .daily => "DAILY"
  | .weekly => "WEEKLY"
  | .monthly => "MONTHLY"
  | .yearly => "YEARLY"

/-- The character class of `/[-:]/` in google.ts line 43. -/
def isDashColon (c : Char) : Bool := c == '-' || c == ':'

/-- One non-global pass of `.replace(/\.\d{3}/, "")` (google.ts line 43):
remove the first occurrence of a dot followed by exactly three digits. -/
def dropDot3 : List Char → List Char
  | [] => []
  | c :: rest =>
    if c = '.' then
      match rest with
      | a :: b :: d :: tail =>
        if a.isDigit && b.isDigit && d.isDigit then tail
        else c :: dropDot3 rest
      | _ => c :: dropDot3 rest
    else c :: dropDot3 rest

/-- `rule.end.until.replace(/[-:]/g, "").replace(/\.\d{3}/, "")`
(google.ts line 43). -/
def stripUntil (s : String) : String :=
  String.mk (dropDot3 (s.data.filter (fun c => !(isDashColon c))))

/-- `buildRruleString` (google.ts lines 25-61). The imperative `parts.push`
sequence is modelled as list appends in the same order; `rule.interval &&
rule.interval > 1` is the `1 < n` test (a TS number passing `> 1` is truthy). -/
def buildRruleString (rule : RecurrenceRule) : String :=
  let parts : List String :=
    ["FREQ=" ++ rruleFreqMap rule.frequency]
      ++ (match rule.interval with
          | some n => if 1 < n then ["INTERVAL=" ++ Nat.repr n] else []
          | none => [])
      ++ (match rule.recEnd with
          | some (RecurrenceEnd.count n) => ["COUNT=" ++ Nat.repr n]
          | some (RecurrenceEnd.«until» u) => ["UNTIL=" ++ stripUntil u]
          | some RecurrenceEnd.forever => []
          | none => [])
      ++ (if rule.byDay.isEmpty then [] else
            ["BYDAY=" ++ String.intercalate "," (rule.byDay.map Weekday.code)])
      ++ (if rule.byMonthDay.isEmpty then [] else
            ["BYMONTHDAY=" ++ String.intercalate "," (rule.byMonthDay.map Nat.repr)])
      ++ (if rule.byMonth.isEmpty then [] else
            ["BYMONTH=" ++ String.intercalate "," (rule.byMonth.map Nat.repr)])
  "RRULE:" ++ String.intercalate ";" parts

example :
    buildRruleString ⟨.weekly, some 2, some (.count 20), [.mo, .fr], [], []⟩
      = "RRULE:FREQ=WEEKLY;INTERVAL=2;COUNT=20;BYDAY=MO,FR" := by decide

example : buildRruleString ⟨.daily, none, none, [], [], []⟩ = "RRULE:FREQ=DAILY" := by decide

example :
    buildRruleString ⟨.monthly, none, some (.«until» "2024-12-31"), [], [], []⟩
      = "RRULE:FREQ=MONTHLY;UNTIL=20241231" := by decide

/-- Restatement of the claimed part layout, written from the spec text
(spec section 4.1): FREQ first always; INTERVAL only when present and greater
than 1; then the termination clause — COUNT for count, UNTIL with separators
stripped for until, nothing for forever; then BYDAY, BYMONTHDAY and BYMONTH
only when non-empty, each comma-joined in input order. -/
def specRruleParts (rule : RecurrenceRule) : List String :=
  let freqPart := ["FREQ=" ++ rruleFreqMap rule.frequency]
  let intervalPart :=
    match rule.interval with
    | some n => if 1 < n then ["INTERVAL=" ++ Nat.repr n] else []
    | none => []
  let terminationPart :=
    match rule.recEnd with
    | some (RecurrenceEnd.count n) => ["COUNT=" ++ Nat.repr n]
    | some (RecurrenceEnd.«until» u) => ["UNTIL=" ++ stripUntil u]
    | some RecurrenceEnd.forever => []
    | none => []
  let byDayPart :=
    if rule.byDay.isEmpty then [] else
      ["BYDAY=" ++ String.intercalate "," (rule.byDay.map Weekday.code)]
  let byMonthDayPart :=
    if rule.byMonthDay.isEmpty then [] else
      ["BYMONTHDAY=" ++ String.intercalate "," (rule.byMonthDay.map Nat.repr)]
  let byMonthPart :=
    if rule.byMonth.isEmpty then [] else
      ["BYMONTH=" ++ String.intercalate "," (rule.byMonth.map Nat.repr)]
  freqPart ++ intervalPart ++ terminationPart ++ byDayPart ++ byMonthDayPart ++ byMonthPart

/-- The spec-side encoder: the spec parts ';'-joined and prefixed "RRULE:". -/
def specRruleEncode (rule : RecurrenceRule) : String :=
  "RRULE:" ++ String.intercalate ";" (specRruleParts rule)

/-- C1: for every RecurrenceRule, `buildRruleString` emits exactly the spec's
part layout — FREQ first always, INTERVAL only when present and greater
than 1, then COUNT or UNTIL with separators stripped (nothing for forever),
then BYDAY, BYMONTHDAY, BYMONTH only when non-empty, joined with ';' and
prefixed "RRULE:" — and the two literal spec examples hold exactly. -/
theorem buildRruleString_layout :
    (∀ rule : RecurrenceRule, buildRruleString rule = specRruleEncode rule)
    ∧ buildRruleString ⟨.weekly, some 2, some (.count 20), [.mo, .fr], [], []⟩
        = "RRULE:FREQ=WEEKLY;INTERVAL=2;COUNT=20;BYDAY=MO,FR"
    ∧ buildRruleString ⟨.daily, none, none, [], [], []⟩ = "RRULE:FREQ=DAILY" :=
  ⟨fun _ => rfl, by decide, by decide⟩

/-! ## Token lifecycle (google.ts lines 100-126, outlook.ts lines 181-211) -/

/-- Token cache state of one adapter instance: `tokenExpiresAt` in google.ts
line 88 and outlook.ts line 174. In outlook.ts the `graphClient` field is
non-null exactly when an expiry has been stored, so one field models both
adapters. Times are epoch milliseconds. -/
structure TokenState where
  tokenExpiresAt : Option Int
  deriving DecidableEq, Repr

/-- The 60-second refresh buffer (`bufferMs`, google.ts line 102, outlook.ts
line 183). -/
def bufferMs : Int := 60 * 1000

/-- The cached-token guard `this.tokenExpiresAt && now < this.tokenExpiresAt -
bufferMs` (google.ts line 104, outlook.ts line 185); a number is truthy in TS
unless it is `0`. -/
def cachedTokenValid (st : TokenState) (now : Int) : Bool :=
  match st.tokenExpiresAt with
  | some t => !(t == 0) && decide (now < t - bufferMs)
  | none => false

/-- Reply of the external `auth.api.getAccessToken` collaborator
(spec section 6): a null reply or an absent token is `none`; the expiry is
already converted to epoch milliseconds, `none` when the collaborator omits
it. -/
structure TokenResult where
  accessToken : Option String
  accessTokenExpiresAt : Option Int
  deriving DecidableEq, Repr

/-- The truthiness test `!tokenResult?.accessToken` (google.ts line 115,
outlook.ts line 196): an absent or empty-string token is unusable. -/
def tokenUsable (r : TokenResult) : Bool :=
  match r.accessToken with
  | some s => !(s == "")
  | none => false

/-- The expiry stored after a fetch (google.ts lines 123-125, outlook.ts lines
206-208): the collaborator's expiry when present, else `now + 3600 * 1000`. -/
def storedExpiry (now : Int) (r : TokenResult) : Int :=
  match r.accessTokenExpiresAt with
  | some e => e
  | none => now + 3600 * 1000

/-- One `ensureInitialized` run: returns the new cache state and whether a
token-acquisition call to the collaborator was made; the not-linked condition
(google.ts line 116, outlook.ts line 197 — the message names the provider) is
`Except.error`. -/
def ensureInitialized (st : TokenState) (now : Int) (fetch : TokenResult) :
    Except String (TokenState × Bool) :=
  if cachedTokenValid st now then Except.ok (st, false)
  else if tokenUsable fetch then
    Except.ok (⟨some (storedExpiry now fetch)⟩, true)
  else Except.error "No account linked for this user"

/-- A sequence of capability calls on one adapter instance: each entry carries
the call's `Date.now()` and the collaborator's reply were it consulted.
Returns the final cache state and how many token-acquisition calls were
made. -/
def runCapabilityCalls (st : TokenState) :
    List (Int × TokenResult) → Except String (TokenState × Nat)
  | [] => Except.ok (st, 0)
  | (now, fetch) :: rest =>
    match ensureInitialized st now fetch with
    | Except.error e => Except.error e
    | Except.ok (st2, acquired) =>
      match runCapabilityCalls st2 rest with
      | Except.error e => Except.error e
      | Except.ok (st3, n) => Except.ok (st3, (if acquired then 1 else 0) + n)

/-- C2 counterexample: an adapter instance that already holds a cached token
whose expiry (1,000,000 ms) is more than 60 seconds after every call time
makes zero token-acquisition calls across three successive capability calls —
not exactly one as the claim states. -/
theorem token_lifecycle_counterexample :
    cachedTokenValid ⟨some 1000000⟩ 2 = true
    ∧ runCapabilityCalls ⟨some 1000000⟩
        [(0, ⟨some "tok", some 2000000⟩),
         (1, ⟨some "tok", some 2000000⟩),
         (2, ⟨some "tok", some 2000000⟩)]
        = Except.ok (⟨some 1000000⟩, 0)
    ∧ (0 : Nat) ≠ 1 :=
  ⟨by decide, by rfl, by decide⟩

/-- C2 (amended): a capability call performs a token-acquisition call iff
there is no cached token (absent or zero stored expiry) or no more than the
60-second buffer remains before the cached expiry; a cached token with more
than the buffer remaining is reused unchanged; otherwise a usable collaborator
reply is cached with its expiry; a fresh adapter instance whose first call
obtains a token expiring more than 60 seconds after the last call makes
exactly one token-acquisition call across three successive capability calls;
and with a cached expiry in the past, the next capability call acquires a
fresh token. -/
theorem token_lifecycle :
    (∀ (st : TokenState) (now : Int),
      cachedTokenValid st now = true
        ↔ ∃ t, st.tokenExpiresAt = some t ∧ t ≠ 0 ∧ now + bufferMs < t)
    ∧ (∀ (st : TokenState) (now : Int) (fetch : TokenResult),
        cachedTokenValid st now = true →
        ensureInitialized st now fetch = Except.ok (st, false))
    ∧ (∀ (st : TokenState) (now : Int) (fetch : TokenResult),
        cachedTokenValid st now = false → tokenUsable fetch = true →
        ensureInitialized st now fetch
          = Except.ok (⟨some (storedExpiry now fetch)⟩, true))
    ∧ (∀ (t1 t2 t3 e : Int) (tok : String) (f2 f3 : TokenResult),
        0 ≤ t1 → t1 ≤ t2 → t2 ≤ t3 → t3 + bufferMs < e → tok ≠ "" →
        runCapabilityCalls ⟨none⟩
            [(t1, ⟨some tok, some e⟩), (t2, f2), (t3, f3)]
          = Except.ok (⟨some e⟩, 1))
    ∧ (∀ (t now : Int) (fetch : TokenResult),
        t ≤ now → tokenUsable fetch = true →
        ensureInitialized ⟨some t⟩ now fetch
          = Except.ok (⟨some (storedExpiry now fetch)⟩, true)) := by
  have hvalid : ∀ (st : TokenState) (now : Int),
      cachedTokenValid st now = true
        ↔ ∃ t, st.tokenExpiresAt = some t ∧ t ≠ 0 ∧ now + bufferMs < t := by
    intro st now
    obtain ⟨exp⟩ := st
    cases exp with
    | none => simp [cachedTokenValid]
    | some t =>
      simp only [cachedTokenValid, Bool.and_eq_true, Bool.not_eq_true', beq_eq_false_iff_ne,
        ne_eq, decide_eq_true_eq, Option.some.injEq, bufferMs]
      constructor
      · rintro ⟨h0, hlt⟩
        exact ⟨t, rfl, h0, by omega⟩
      · rintro ⟨t2, ht2, h0, hlt⟩
        cases ht2
        exact ⟨h0, by omega⟩
  refine ⟨hvalid, ?_, ?_, ?_, ?_⟩
  · intro st now fetch h
    simp [ensureInitialized, h]
  · intro st now fetch h hu
    simp [ensureInitialized, h, hu]
  · intro t1 t2 t3 e tok f2 f3 h0 h12 h23 he htok
    have hc1 : cachedTokenValid ⟨none⟩ t1 = false := rfl
    have hu : tokenUsable ⟨some tok, some e⟩ = true := by
      simp [tokenUsable, htok]
    have he0 : e ≠ 0 := by simp only [bufferMs] at he; omega
    have hc2 : cachedTokenValid ⟨some e⟩ t2 = true :=
      (hvalid ⟨some e⟩ t2).2 ⟨e, rfl, he0, by simp only [bufferMs] at he ⊢; omega⟩
    have hc3 : cachedTokenValid ⟨some e⟩ t3 = true :=
      (hvalid ⟨some e⟩ t3).2 ⟨e, rfl, he0, by simp only [bufferMs] at he ⊢; omega⟩
    simp [runCapabilityCalls, ensureInitialized, hc1, hu, hc2, hc3, storedExpiry]
  · intro t now fetch hle hu
    have hc : cachedTokenValid ⟨some t⟩ now = false := by
      by_contra hc
      obtain ⟨t2, ht2, _, hlt⟩ :=
        (hvalid ⟨some t⟩ now).1 (Bool.of_not_eq_false hc)
      cases ht2
      simp only [bufferMs] at hlt
      omega
    simp [ensureInitialized, hc, hu]

/-- C2 witness: the amended three-call scenario evaluated at concrete
inputs. -/
theorem token_lifecycle_witness :
    runCapabilityCalls ⟨none⟩
        [((0 : Int), ⟨some "tok", some 1000000⟩),
         (1, ⟨some "tok", some 1000000⟩),
         (2, ⟨some "tok", some 1000000⟩)]
      = Except.ok (⟨some 1000000⟩, 1) :=
  token_lifecycle.2.2.2.1 0 1 2 1000000 "tok" ⟨some "tok", some 1000000⟩
    ⟨some "tok", some 1000000⟩ (by decide) (by decide) (by decide) (by decide)
    (by decide)

/-! ## Domain event types (types.ts) -/

/-- TS union `EventDateTime` in types.ts: the `timed`/`allDay` tagged union. -/
inductive EventDateTime
  | timed (dateTime : String) (timeZone : Option String)
  | allDay (date : String)
  deriving DecidableEq, Repr

/-- TS interface `EventReminder` in types.ts; `method` is one of the
`ReminderMethod` string values at the type level, a plain string at runtime
(google.ts casts upstream strings into it unchecked). -/
structure EventReminder where
  method : String
  minutes : Nat
  deriving DecidableEq, Repr

/-- TS union `EventReminders` in types.ts: `{type: "default"} |
{type: "custom", overrides}`. -/
inductive EventReminders
  | default
  | custom (overrides : List EventReminder)
  deriving DecidableEq, Repr

/-! ## Outlook/Graph recurrence writer (outlook.ts lines 26-151) -/

/-- `GRAPH_DAY_TO_WEEKDAY` (outlook.ts lines 26-34); a key outside the record
yields `undefined`, here `none`. -/
def GRAPH_DAY_TO_WEEKDAY (s : String) : Option Weekday :=
  if s = "monday" then some .mo
  else if s = "tuesday" then some .tu
  else if s = "wednesday" then some .we
  else if s = "thursday" then some .th
  else if s = "friday" then some .fr
  else if s = "saturday" then some .sa
  else if s = "sunday" then some .su
  else none

/-- `WEEKDAY_TO_GRAPH_DAY` (outlook.ts lines 36-44). -/
def WEEKDAY_TO_GRAPH_DAY : Weekday → String
  | .mo => "monday"
  | .tu => "tuesday"
  | .we => "wednesday"
  | .th => "thursday"
  | .fr => "friday"
  | .sa => "saturday"
  | .su => "sunday"

/-- The fields of the Graph `recurrence.pattern` object that outlook.ts reads
or writes; absent JSON fields are `none`. -/
structure GraphRecurrencePattern where
  type : String
  interval : Nat
  daysOfWeek : Option (List String)
  dayOfMonth : Option Nat
  month : Option Nat
  deriving DecidableEq, Repr

/-- The fields of the Graph `recurrence.range` object that outlook.ts reads or
writes. -/
structure GraphRecurrenceRange where
  startDate : String
  type : String
  endDate : Option String
  numberOfOccurrences : Option Nat
  deriving DecidableEq, Repr

/-- A Graph recurrence: pattern plus range. -/
structure GraphRecurrence where
  pattern : GraphRecurrencePattern
  range : GraphRecurrenceRange
  deriving DecidableEq, Repr

/-- The inline `freqMap` of `buildGraphRecurrence` (outlook.ts lines
111-116). -/
def graphFreqMap : RecurrenceFrequency → String
  | .daily => "daily"
  | .weekly => "weekly"
  | .monthly => "absoluteMonthly"
  | .yearly => "absoluteYearly"

/-- `buildGraphRecurrence` (outlook.ts lines 110-151): canonical rule plus the
event's start date-time string to the Graph pattern/range structure. `interval`
is `rule.interval ?? 1`; `daysOfWeek`, `dayOfMonth` and `month` are set only
when the corresponding list is non-empty, `dayOfMonth`/`month` from the first
element only; the range seeds `startDate` from the date part of the start and
encodes the termination as noEnd/endDate/numbered. -/
def buildGraphRecurrence (rule : RecurrenceRule) (startDate : String) :
    GraphRecurrence :=
  let pattern : GraphRecurrencePattern :=
    { type := graphFreqMap rule.frequency
      interval := match rule.interval with | some n => n | none => 1
      daysOfWeek :=
        if rule.byDay.isEmpty then none
        else some (rule.byDay.map WEEKDAY_TO_GRAPH_DAY)
      dayOfMonth := match rule.byMonthDay with | d :: _ => some d | [] => none
      month := match rule.byMonth with | m :: _ => some m | [] => none }
  let rangeStart := ((startDate.splitOn "T").headD "")
  let range : GraphRecurrenceRange :=
    match rule.recEnd with
    | some (RecurrenceEnd.«until» u) =>
      { startDate := rangeStart, type := "endDate"
        endDate := some ((u.splitOn "T").headD ""), numberOfOccurrences := none }
    | some (RecurrenceEnd.count n) =>
      { startDate := rangeStart, type := "numbered"
        endDate := none, numberOfOccurrences := some n }
    | _ =>
      { startDate := rangeStart, type := "noEnd"
        endDate := none, numberOfOccurrences := none }
  ⟨pattern, range⟩

/-- C3: on write, a non-empty `byMonthDay` contributes only its first element
as the pattern's `dayOfMonth`, and a non-empty `byMonth` only its first
element as the pattern's `month`; the remaining elements are discarded — the
whole output is unchanged when the tails are dropped. -/
theorem buildGraphRecurrence_first_element_only
    (rule : RecurrenceRule) (startDate : String) :
    (∀ d ds, rule.byMonthDay = d :: ds →
      (buildGraphRecurrence rule startDate).pattern.dayOfMonth = some d
      ∧ buildGraphRecurrence rule startDate
          = buildGraphRecurrence { rule with byMonthDay := [d] } startDate)
    ∧ (∀ m ms, rule.byMonth = m :: ms →
      (buildGraphRecurrence rule startDate).pattern.month = some m
      ∧ buildGraphRecurrence rule startDate
          = buildGraphRecurrence { rule with byMonth := [m] } startDate) := by
  constructor
  · rintro d ds h
    simp [buildGraphRecurrence, h]
  · rintro m ms h
    simp [buildGraphRecurrence, h]

/-- C3 witness: a rule with `byMonthDay = [5, 6]` and `byMonth = [2, 3]`
writes `dayOfMonth = 5` and `month = 2`. -/
theorem buildGraphRecurrence_first_element_only_witness :
    (buildGraphRecurrence ⟨.monthly, none, none, [], [5, 6], [2, 3]⟩
        "2024-01-15T10:00:00Z").pattern.dayOfMonth = some 5
    ∧ (buildGraphRecurrence ⟨.monthly, none, none, [], [5, 6], [2, 3]⟩
        "2024-01-15T10:00:00Z").pattern.month = some 2 :=
  ⟨(buildGraphRecurrence_first_element_only
      ⟨.monthly, none, none, [], [5, 6], [2, 3]⟩ "2024-01-15T10:00:00Z").1
      5 [6] rfl |>.1,
   (buildGraphRecurrence_first_element_only
      ⟨.monthly, none, none, [], [5, 6], [2, 3]⟩ "2024-01-15T10:00:00Z").2
      2 [3] rfl |>.1⟩

/-- `toGraphDateTime` (outlook.ts lines 153-158). -/
def toGraphDateTime (dt : EventDateTime) : String × String :=
  match dt with
  | .timed dateTime timeZone => (dateTime, timeZone.getD "UTC")
  | .allDay date => (date, "UTC")

/-- `toGraphReminders` (outlook.ts lines 160-168): returns `isReminderOn` and
the optional `reminderMinutesBeforeStart`. -/
def toGraphReminders (reminders : EventReminders) : Bool × Option Nat :=
  match reminders with
  | .default => (false, none)
  | .custom overrides =>
    match overrides with
    | o :: _ => (true, some o.minutes)
    | [] => (false, none)

/-- C10: writing reminders to Graph maps the calendar-default request (and an
empty custom list) to `isReminderOn = false` with no minutes value — the
upstream reminder is disabled — and a non-empty custom list to
`isReminderOn = true` carrying only the first override's minutes. -/
theorem toGraphReminders_lossy :
    toGraphReminders .default = (false, none)
    ∧ toGraphReminders (.custom []) = (false, none)
    ∧ ∀ (o : EventReminder) (os : List EventReminder),
        toGraphReminders (.custom (o :: os)) = (true, some o.minutes) :=
  ⟨rfl, rfl, fun _ _ => rfl⟩

/-! ## Shared domain event shape (types.ts `CalendarEvent`) -/

/-- TS interface `EventAttendee` (types.ts). -/
structure EventAttendee where
  email : String
  displayName : Option String
  responseStatus : Option String
  optional : Option Bool
  organizer : Option Bool
  self : Option Bool
  deriving DecidableEq, Repr

/-- The inline organizer shape of TS `CalendarEvent` (types.ts). -/
structure EventOrganizer where
  email : String
  displayName : Option String
  self : Option Bool
  deriving DecidableEq, Repr

/-- TS interface `CalendarEvent` (types.ts). Enum-valued fields (`status`,
`visibility`, attendee `responseStatus`) are strings at runtime; the TS `end`
field is written `«end»`. -/
structure CalendarEvent where
  id : String
  calendarId : String
  summary : String
  description : Option String
  location : Option String
  start : EventDateTime
  «end» : EventDateTime
  status : String
  attendees : Option (List EventAttendee)
  organizer : Option EventOrganizer
  reminders : Option EventReminders
  recurrence : Option (List String)
  created : Option String
  updated : Option String
  htmlLink : Option String
  recurringEventId : Option String
  visibility : Option String
  deriving DecidableEq, Repr

/-- TS `x || d` on an optional string: the fallback applies to `undefined`,
`null` and the falsy empty string. -/
def orFalsy (o : Option String) (d : String) : String :=
  match o with
  | some s => if s = "" then d else s
  | none => d

/-- TS `x ? f(x) : undefined` on an optional string: the empty string is
falsy. -/
def optTruthy (o : Option String) : Option String :=
  match o with
  | some s => if s = "" then none else some s
  | none => none

/-! ## Outlook read mapping (outlook.ts lines 46-108, 213-300) -/

namespace OutlookCalendarProvider

/-- `GRAPH_RESPONSE_STATUS_MAP` (outlook.ts lines 46-53); a key outside the
record yields `undefined`. -/
def GRAPH_RESPONSE_STATUS_MAP (s : String) : Option String :=
  if s = "none" then some "needsAction"
  else if s = "notResponded" then some "needsAction"
  else if s = "organizer" then some "accepted"
  else if s = "tentativelyAccepted" then some "tentative"
  else if s = "accepted" then some "accepted"
  else if s = "declined" then some "declined"
  else none

/-- The inline `freqMap` of `parseGraphRecurrence` (outlook.ts lines 63-70). -/
def parseGraphFreqMap (s : String) : Option String :=
  if s = "daily" then some "DAILY"
  else if s = "weekly" then some "WEEKLY"
  else if s = "absoluteMonthly" then some "MONTHLY"
  else if s = "relativeMonthly" then some "MONTHLY"
  else if s = "absoluteYearly" then some "YEARLY"
  else if s = "relativeYearly" then some "YEARLY"
  else none

/-- Read-side wire shape of a Graph `recurrence.pattern`; every field may be
absent. -/
structure GraphPatternWire where
  type : Option String
  interval : Option Nat
  daysOfWeek : Option (List String)
  dayOfMonth : Option Nat
  month : Option Nat
  deriving DecidableEq, Repr

/-- Read-side wire shape of a Graph `recurrence.range`. -/
structure GraphRangeWire where
  type : Option String
  endDate : Option String
  numberOfOccurrences : Option Nat
  deriving DecidableEq, Repr

/-- Read-side wire shape of a Graph `recurrence` object. -/
structure GraphRecurrenceWire where
  pattern : Option GraphPatternWire
  range : Option GraphRangeWire
  deriving DecidableEq, Repr

/-- `parseGraphRecurrence` (outlook.ts lines 55-108): Graph pattern/range to a
single-element RRULE string list; a missing pattern/range or an unrecognized
native frequency yields `none` (no recurrence) rather than an error. -/
def parseGraphRecurrence (recurrence : Option GraphRecurrenceWire) :
    Option (List String) :=
  match recurrence with
  | none => none
  | some r =>
    match r.pattern, r.range with
    | some pattern, some range =>
      match parseGraphFreqMap (orFalsy pattern.type "") with
      | none => none
      | some freq =>
        let parts : List String :=
          ["FREQ=" ++ freq]
            ++ (match pattern.interval with
                | some n => if 1 < n then ["INTERVAL=" ++ Nat.repr n] else []
                | none => [])
            ++ (match pattern.daysOfWeek with
                | some days =>
                  if days.isEmpty then []
                  else
                    let byDay := days.filterMap
                      (fun d => GRAPH_DAY_TO_WEEKDAY d.toLower)
                    if byDay.isEmpty then []
                    else ["BYDAY=" ++ String.intercalate "," (byDay.map Weekday.code)]
                | none => [])
            ++ (match pattern.dayOfMonth with
                | some d => if d = 0 then [] else ["BYMONTHDAY=" ++ Nat.repr d]
                | none => [])
            ++ (match pattern.month with
                | some m => if m = 0 then [] else ["BYMONTH=" ++ Nat.repr m]
                | none => [])
            ++ (if range.type = some "endDate" then
                  match optTruthy range.endDate with
                  | some ed =>
                    ["UNTIL=" ++ String.mk (ed.data.filter (fun c => !(c == '-')))
                      ++ "T235959Z"]
                  | none => []
                else if range.type = some "numbered" then
                  match range.numberOfOccurrences with
                  | some n => if n = 0 then [] else ["COUNT=" ++ Nat.repr n]
                  | none => []
                else [])
        some ["RRULE:" ++ String.intercalate ";" parts]
    | _, _ => none

/-- Wire shape of a Graph `start`/`end` object. -/
structure GraphDateTimeWire where
  dateTime : Option String
  timeZone : Option String
  deriving DecidableEq, Repr

/-- `mapEventDateTime` (outlook.ts lines 225-236): the explicit `isAllDay`
flag takes precedence over the presence of a time component; a missing or
falsy `dateTime` maps to an all-day value with an empty date. -/
def mapEventDateTime (dt : Option GraphDateTimeWire) (isAllDay : Option Bool) :
    EventDateTime :=
  match dt with
  | some d =>
    match optTruthy d.dateTime with
    | some s =>
      if isAllDay = some true then .allDay ((s.splitOn "T").headD "")
      else .timed s d.timeZone
    | none => .allDay ""
  | none => .allDay ""

/-- `mapReminders` (outlook.ts lines 238-249). -/
def mapReminders (isReminderOn : Option Bool)
    (reminderMinutes : Option Nat) : EventReminders :=
  match isReminderOn, reminderMinutes with
  | some true, some m => .custom [⟨"popup", m⟩]
  | _, _ => .default

/-- Wire shape of a Graph `emailAddress` object. -/
structure GraphEmailAddress where
  address : Option String
  name : Option String
  deriving DecidableEq, Repr

/-- Wire shape of a Graph attendee. -/
structure GraphAttendee where
  emailAddress : Option GraphEmailAddress
  status : Option String
  type : Option String
  deriving DecidableEq, Repr

/-- Wire shape of a Graph event, restricted to the fields outlook.ts reads;
`id` is asserted present in the source (`item.id!`). Nested one-field objects
are flattened: `bodyContent` is `item.body?.content`, `locationDisplayName`
is `item.location?.displayName`, `organizer` is `item.organizer?.emailAddress`,
and an attendee's `status` is its nested `status?.response` value. -/
structure GraphEventWire where
  id : String
  subject : Option String
  bodyPreview : Option String
  bodyContent : Option String
  locationDisplayName : Option String
  start : Option GraphDateTimeWire
  «end» : Option GraphDateTimeWire
  isAllDay : Option Bool
  showAs : Option String
  isCancelled : Option Bool
  attendees : Option (List GraphAttendee)
  organizer : Option GraphEmailAddress
  isOrganizer : Option Bool
  createdDateTime : Option String
  lastModifiedDateTime : Option String
  webLink : Option String
  seriesMasterId : Option String
  sensitivity : Option String
  isReminderOn : Option Bool
  reminderMinutesBeforeStart : Option Nat
  recurrence : Option GraphRecurrenceWire
  deriving DecidableEq, Repr

/-- The inline `statusMap` of `mapEvent` (outlook.ts lines 252-259). -/
def statusMap (s : String) : Option String :=
  if s = "free" then some "confirmed"
  else if s = "tentative" then some "tentative"
  else if s = "busy" then some "confirmed"
  else if s = "oof" then some "confirmed"
  else if s = "workingElsewhere" then some "confirmed"
  else if s = "unknown" then some "confirmed"
  else none

/-- The inline `visibilityMap` of `mapEvent` (outlook.ts lines 261-266). -/
def visibilityMap (s : String) : Option String :=
  if s = "normal" then some "default"
  else if s = "personal" then some "private"
  else if s = "private" then some "private"
  else if s = "confidential" then some "confidential"
  else none

/-- `mapEvent` (outlook.ts lines 251-300). -/
def mapEvent (item : GraphEventWire) (calendarId : String) : CalendarEvent :=
  { id := item.id
    calendarId := calendarId
    summary := item.subject.getD "Untitled"
    description :=
      match item.bodyPreview with
      | some p => some p
      | none => item.bodyContent
    location := item.locationDisplayName
    start := mapEventDateTime item.start item.isAllDay
    «end» := mapEventDateTime item.«end» item.isAllDay
    status :=
      if item.isCancelled = some true then "cancelled"
      else (statusMap (orFalsy item.showAs "")).getD "confirmed"
    attendees := item.attendees.map (List.map (fun a =>
      { email := (a.emailAddress.bind (fun e => e.address)).getD ""
        displayName := a.emailAddress.bind (fun e => e.name)
        responseStatus :=
          some ((GRAPH_RESPONSE_STATUS_MAP (orFalsy a.status "none")).getD
            "needsAction")
        optional := some (a.type = some "optional")
        organizer := some false
        self := some false }))
    organizer :=
      match item.organizer with
      | some e =>
        some { email := e.address.getD "", displayName := e.name
               self := item.isOrganizer }
      | none => none
    reminders :=
      some (mapReminders item.isReminderOn item.reminderMinutesBeforeStart)
    recurrence := parseGraphRecurrence item.recurrence
    created := item.createdDateTime
    updated := item.lastModifiedDateTime
    htmlLink := item.webLink
    recurringEventId := optTruthy item.seriesMasterId
    visibility := some ((visibilityMap (orFalsy item.sensitivity "normal")).getD
      "default") }

end OutlookCalendarProvider

/-- C7: an upstream event whose `isCancelled` flag is true maps to status
`cancelled` whatever `showAs` holds; without the flag, status comes from the
fixed `statusMap` lookup on `showAs`, and any showAs value outside the table
defaults to `confirmed`. -/
theorem outlook_cancelled_overrides_status :
    (∀ (item : OutlookCalendarProvider.GraphEventWire) (cal : String),
      item.isCancelled = some true →
      (OutlookCalendarProvider.mapEvent item cal).status = "cancelled")
    ∧ (∀ (item : OutlookCalendarProvider.GraphEventWire) (cal : String),
      item.isCancelled ≠ some true →
      (OutlookCalendarProvider.mapEvent item cal).status
        = (OutlookCalendarProvider.statusMap (orFalsy item.showAs "")).getD
            "confirmed")
    ∧ (∀ s : String,
      s ∉ ["free", "tentative", "busy", "oof", "workingElsewhere", "unknown"] →
      (OutlookCalendarProvider.statusMap s).getD "confirmed" = "confirmed") := by
  refine ⟨?_, ?_, ?_⟩
  · intro item cal h
    simp [OutlookCalendarProvider.mapEvent, h]
  · intro item cal h
    simp [OutlookCalendarProvider.mapEvent, h]
  · intro s h
    simp only [List.mem_cons, List.not_mem_nil, or_false, not_or] at h
    obtain ⟨h1, h2, h3, h4, h5, h6⟩ := h
    simp [OutlookCalendarProvider.statusMap, h1, h2, h3, h4, h5, h6]

/-- C7 witness: an event flagged cancelled while `showAs = "free"` maps to
status `cancelled`; without the flag an unrecognized `showAs` maps to
`confirmed`. -/
theorem outlook_cancelled_overrides_status_witness :
    (OutlookCalendarProvider.mapEvent
      ⟨"e1", some "Meeting", none, none, none, none, none, none, some "free",
        some true, none, none, none, none, none, none, none, none, none, none,
        none⟩ "cal").status = "cancelled"
    ∧ (OutlookCalendarProvider.statusMap "mystery").getD "confirmed"
        = "confirmed" :=
  ⟨outlook_cancelled_overrides_status.1
      ⟨"e1", some "Meeting", none, none, none, none, none, none, some "free",
        some true, none, none, none, none, none, none, none, none, none, none,
        none⟩ "cal" rfl,
   outlook_cancelled_overrides_status.2.2 "mystery" (by decide)⟩

/-! ## Write-side parameters (types.ts) and payload builders -/

/-- The attendee subset accepted on write
(`Pick<EventAttendee, "email" | "displayName" | "optional">`, types.ts). -/
structure CreateAttendee where
  email : String
  displayName : Option String
  optional : Option Bool
  deriving DecidableEq, Repr

/-- TS interface `CreateEventParams` (types.ts); `visibility` and
`sendUpdates` are string unions at runtime. -/
structure CreateEventParams where
  summary : String
  description : Option String
  location : Option String
  start : EventDateTime
  «end» : EventDateTime
  attendees : Option (List CreateAttendee)
  visibility : Option String
  sendUpdates : Option String
  reminders : Option EventReminders
  recurrence : Option RecurrenceRule
  deriving DecidableEq, Repr

/-- TS interface `UpdateEventParams` (types.ts): every field optional. -/
structure UpdateEventParams where
  summary : Option String
  description : Option String
  location : Option String
  start : Option EventDateTime
  «end» : Option EventDateTime
  attendees : Option (List CreateAttendee)
  visibility : Option String
  sendUpdates : Option String
  reminders : Option EventReminders
  recurrence : Option RecurrenceRule
  deriving DecidableEq, Repr

namespace OutlookCalendarProvider

/-- The `Partial<GraphEvent>` write payload assembled by `createEvent` and
`updateEvent` (outlook.ts lines 368-401, 417-469); `none` is a key absent
from the JSON body. `body` is (contentType, content); `attendees` entries are
(address, name, type); Graph date-times are (dateTime, timeZone). -/
structure GraphEventPayload where
  subject : Option String
  body : Option (String × String)
  location : Option String
  start : Option (String × String)
  «end» : Option (String × String)
  isAllDay : Option Bool
  attendees : Option (List (String × Option String × String))
  sensitivity : Option String
  isReminderOn : Option Bool
  reminderMinutesBeforeStart : Option Nat
  recurrence : Option GraphRecurrence
  deriving DecidableEq, Repr

/-- The sensitivity ternary of outlook.ts lines 381-385 and 448-453. -/
def sensitivityOf (visibility : Option String) : String :=
  if visibility = some "private" then "private"
  else if visibility = some "confidential" then "confidential"
  else "normal"

/-- The attendee write mapping of outlook.ts lines 377-380 and 441-444. -/
def graphAttendeeOf (a : CreateAttendee) : String × Option String × String :=
  (a.email, a.displayName, if a.optional = some true then "optional" else "required")

/-- The payload built by `createEvent` (outlook.ts lines 362-408): `body` and
`location` only when the input string is truthy; `isAllDay` from the start
kind; the reminder fields when reminders are supplied (the minutes value only
when the translation produced one); recurrence only when supplied together
with a timed start. The source's two conditional assignments after the object
literal write fields the literal leaves unset, so the payload is modelled
field-wise. -/
def createEventPayload (event : CreateEventParams) : GraphEventPayload :=
  { subject := some event.summary
    body :=
      match event.description with
      | some d => if d = "" then none else some ("text", d)
      | none => none
    location :=
      match event.location with
      | some l => if l = "" then none else some l
      | none => none
    start := some (toGraphDateTime event.start)
    «end» := some (toGraphDateTime event.«end»)
    isAllDay := some (match event.start with
      | .allDay _ => true
      | .timed _ _ => false)
    attendees := event.attendees.map (List.map graphAttendeeOf)
    sensitivity := some (sensitivityOf event.visibility)
    isReminderOn := event.reminders.map (fun r => (toGraphReminders r).1)
    reminderMinutesBeforeStart :=
      event.reminders.bind (fun r => (toGraphReminders r).2)
    recurrence :=
      match event.recurrence, event.start with
      | some rule, EventDateTime.timed dt _ =>
        some (buildGraphRecurrence rule dt)
      | _, _ => none }

/-- The payload built by `updateEvent` (outlook.ts lines 410-476): starting
from an empty object, each field is written only under `x !== undefined`; a
supplied start also sets `isAllDay`; recurrence only when supplied together
with a timed start from the same call's parameters. The source's sequence of
guarded assignments writes pairwise-disjoint fields, so the payload is
modelled field-wise. -/
def updateEventPayload (event : UpdateEventParams) : GraphEventPayload :=
  { subject := event.summary
    body := event.description.map (fun d => ("text", d))
    location := event.location
    start := event.start.map toGraphDateTime
    «end» := event.«end».map toGraphDateTime
    isAllDay := event.start.map (fun st => match st with
      | .allDay _ => true
      | .timed _ _ => false)
    attendees := event.attendees.map (List.map graphAttendeeOf)
    sensitivity := event.visibility.map (fun v => sensitivityOf (some v))
    isReminderOn := event.reminders.map (fun r => (toGraphReminders r).1)
    reminderMinutesBeforeStart :=
      event.reminders.bind (fun r => (toGraphReminders r).2)
    recurrence :=
      match event.recurrence, event.start with
      | some rule, some (EventDateTime.timed dt _) =>
        some (buildGraphRecurrence rule dt)
      | _, _ => none }

end OutlookCalendarProvider

/-- C9: in the Outlook adapter a recurrence rule reaches the upstream payload
only alongside a timed start from the same call: `createEvent` includes it
exactly when the start is timed, and drops it silently for an all-day start;
`updateEvent` additionally drops it when no start is supplied at all. -/
theorem outlook_recurrence_requires_timed_start :
    (∀ (e : CreateEventParams) (rule : RecurrenceRule) (dt : String)
        (tz : Option String),
      e.recurrence = some rule → e.start = .timed dt tz →
      (OutlookCalendarProvider.createEventPayload e).recurrence
        = some (buildGraphRecurrence rule dt))
    ∧ (∀ (e : CreateEventParams) (d : String), e.start = .allDay d →
      (OutlookCalendarProvider.createEventPayload e).recurrence = none)
    ∧ (∀ (e : UpdateEventParams) (rule : RecurrenceRule) (dt : String)
        (tz : Option String),
      e.recurrence = some rule → e.start = some (.timed dt tz) →
      (OutlookCalendarProvider.updateEventPayload e).recurrence
        = some (buildGraphRecurrence rule dt))
    ∧ (∀ (e : UpdateEventParams), e.start = none →
      (OutlookCalendarProvider.updateEventPayload e).recurrence = none)
    ∧ (∀ (e : UpdateEventParams) (d : String), e.start = some (.allDay d) →
      (OutlookCalendarProvider.updateEventPayload e).recurrence = none) := by
  refine ⟨?_, ?_, ?_, ?_, ?_⟩
  · intro e rule dt tz hr hs
    simp [OutlookCalendarProvider.createEventPayload, hr, hs]
  · intro e d hs
    cases hrec : e.recurrence <;>
      simp [OutlookCalendarProvider.createEventPayload, hrec, hs]
  · intro e rule dt tz hr hs
    simp [OutlookCalendarProvider.updateEventPayload, hr, hs]
  · intro e hs
    cases hrec : e.recurrence <;>
      simp [OutlookCalendarProvider.updateEventPayload, hrec, hs]
  · intro e d hs
    cases hrec : e.recurrence <;>
      simp [OutlookCalendarProvider.updateEventPayload, hrec, hs]

/-- C9 witness: a create call with a recurrence and an all-day start sends no
recurrence; with a timed start it sends the built Graph recurrence; an update
call carrying a recurrence but no start sends none. -/
theorem outlook_recurrence_requires_timed_start_witness :
    (OutlookCalendarProvider.createEventPayload
      ⟨"Holiday", none, none, .allDay "2024-01-15", .allDay "2024-01-16", none,
        none, none, none, some ⟨.daily, none, none, [], [], []⟩⟩).recurrence
      = none
    ∧ (OutlookCalendarProvider.createEventPayload
      ⟨"Sync", none, none, .timed "2024-01-15T10:00:00Z" none,
        .timed "2024-01-15T11:00:00Z" none, none, none, none, none,
        some ⟨.daily, none, none, [], [], []⟩⟩).recurrence
      = some (buildGraphRecurrence ⟨.daily, none, none, [], [], []⟩
          "2024-01-15T10:00:00Z")
    ∧ (OutlookCalendarProvider.updateEventPayload
      ⟨none, none, none, none, none, none, none, none, none,
        some ⟨.daily, none, none, [], [], []⟩⟩).recurrence = none :=
  ⟨outlook_recurrence_requires_timed_start.2.1
      ⟨"Holiday", none, none, .allDay "2024-01-15", .allDay "2024-01-16", none,
        none, none, none, some ⟨.daily, none, none, [], [], []⟩⟩
      "2024-01-15" rfl,
   outlook_recurrence_requires_timed_start.1
      ⟨"Sync", none, none, .timed "2024-01-15T10:00:00Z" none,
        .timed "2024-01-15T11:00:00Z" none, none, none, none, none,
        some ⟨.daily, none, none, [], [], []⟩⟩
      ⟨.daily, none, none, [], [], []⟩ "2024-01-15T10:00:00Z" none rfl rfl,
   outlook_recurrence_requires_timed_start.2.2.2.1
      ⟨none, none, none, none, none, none, none, none, none,
        some ⟨.daily, none, none, [], [], []⟩⟩ rfl⟩

/-! ## Google adapter (google.ts) -/

namespace GoogleCalendarProvider

/-- The wire shape written or read as a Google `EventDateTime`
(`{dateTime?, date?, timeZone?}`). -/
structure GoogleDateTime where
  dateTime : Option String
  date : Option String
  timeZone : Option String
  deriving DecidableEq, Repr

/-- `toGoogleDateTime` (google.ts lines 63-68). -/
def toGoogleDateTime (dt : EventDateTime) : GoogleDateTime :=
  match dt with
  | .timed dateTime timeZone => ⟨some dateTime, none, timeZone⟩
  | .allDay date => ⟨none, some date, none⟩

/-- The reminders object written upstream (`Schema$Event["reminders"]`):
`useDefault` plus optional overrides of (method, minutes). -/
structure GoogleRemindersPayload where
  useDefault : Bool
  overrides : Option (List (String × Nat))
  deriving DecidableEq, Repr

/-- `toGoogleReminders` (google.ts lines 70-81). -/
def toGoogleReminders (reminders : EventReminders) : GoogleRemindersPayload :=
  match reminders with
  | .default => ⟨true, none⟩
  | .custom overrides =>
    ⟨false, some (overrides.map (fun r => (r.method, r.minutes)))⟩

/-- The `requestBody` assembled by `updateEvent` (google.ts lines 293-309).
Object keys whose value is `undefined` are dropped when the client serializes
the JSON body, so `none` models a field absent from the wire payload;
attendee entries are (email, displayName, optional). -/
structure GoogleEventRequestBody where
  summary : Option String
  description : Option String
  location : Option String
  start : Option GoogleDateTime
  «end» : Option GoogleDateTime
  attendees : Option (List (String × Option String × Option Bool))
  visibility : Option String
  reminders : Option GoogleRemindersPayload
  recurrence : Option (List String)
  deriving DecidableEq, Repr

/-- The `updateEvent` request body (google.ts lines 282-313): plain fields
pass through (an absent input leaves the key `undefined`), `start`/`end`
convert when present, reminders and recurrence translate when present. -/
def updateRequestBody (event : UpdateEventParams) : GoogleEventRequestBody :=
  { summary := event.summary
    description := event.description
    location := event.location
    start := event.start.map toGoogleDateTime
    «end» := event.«end».map toGoogleDateTime
    attendees := event.attendees.map (List.map (fun a =>
      (a.email, a.displayName, a.optional)))
    visibility := event.visibility
    reminders := event.reminders.map toGoogleReminders
    recurrence := event.recurrence.map (fun r => [buildRruleString r]) }

/-- Wire shape of a Google reminder override; the source asserts `minutes`
present (`r.minutes!`) and casts `method` unchecked. -/
structure GoogleReminderOverrideWire where
  method : String
  minutes : Nat
  deriving DecidableEq, Repr

/-- Wire shape of a Google `reminders` object. -/
structure GoogleRemindersWire where
  useDefault : Option Bool
  overrides : Option (List GoogleReminderOverrideWire)
  deriving DecidableEq, Repr

/-- `mapReminders` (google.ts lines 149-166): absent input stays absent; a
truthy `useDefault` gives the default value; otherwise a non-empty overrides
array maps entrywise to a custom value; otherwise the default value again —
never an empty custom list. -/
def mapReminders (reminders : Option GoogleRemindersWire) :
    Option EventReminders :=
  match reminders with
  | none => none
  | some r =>
    if r.useDefault = some true then some .default
    else
      match r.overrides with
      | some (o :: os) =>
        some (.custom ((o :: os).map (fun x => ⟨x.method, x.minutes⟩)))
      | _ => some .default

/-- Wire shape of a Google attendee; `email` is asserted present
(`a.email!`). -/
structure GoogleAttendeeWire where
  email : String
  displayName : Option String
  responseStatus : Option String
  optional : Option Bool
  organizer : Option Bool
  self : Option Bool
  deriving DecidableEq, Repr

/-- Wire shape of a Google organizer; `email` is asserted present. -/
structure GoogleOrganizerWire where
  email : String
  displayName : Option String
  self : Option Bool
  deriving DecidableEq, Repr

/-- Wire shape of a Google event, restricted to the fields google.ts reads;
`id` is asserted present (`item.id!`). -/
structure GoogleEventWire where
  id : String
  summary : Option String
  description : Option String
  location : Option String
  start : Option GoogleDateTime
  «end» : Option GoogleDateTime
  status : Option String
  attendees : Option (List GoogleAttendeeWire)
  organizer : Option GoogleOrganizerWire
  created : Option String
  updated : Option String
  htmlLink : Option String
  recurringEventId : Option String
  visibility : Option String
  reminders : Option GoogleRemindersWire
  recurrence : Option (List String)
  deriving DecidableEq, Repr

/-- `mapEventDateTime` (google.ts lines 140-147): a truthy `dateTime` maps to
timed, otherwise all-day from `date ?? ""`. -/
def mapEventDateTime (start : Option GoogleDateTime) : EventDateTime :=
  match start with
  | some s =>
    match optTruthy s.dateTime with
    | some dt => .timed dt s.timeZone
    | none => .allDay (s.date.getD "")
  | none => .allDay ""

/-- `mapEvent` (google.ts lines 168-205). -/
def mapEvent (item : GoogleEventWire) (calendarId : String) : CalendarEvent :=
  { id := item.id
    calendarId := calendarId
    summary := item.summary.getD "Untitled"
    description := item.description
    location := item.location
    start := mapEventDateTime item.start
    «end» := mapEventDateTime item.«end»
    status := item.status.getD "confirmed"
    attendees := item.attendees.map (List.map (fun a =>
      { email := a.email
        displayName := a.displayName
        responseStatus := a.responseStatus
        optional := a.optional
        organizer := a.organizer
        self := a.self }))
    organizer := item.organizer.map (fun o =>
      { email := o.email, displayName := o.displayName, self := o.self })
    reminders := mapReminders item.reminders
    recurrence := item.recurrence
    created := item.created
    updated := item.updated
    htmlLink := item.htmlLink
    recurringEventId := optTruthy item.recurringEventId
    visibility := some (item.visibility.getD "default") }

end GoogleCalendarProvider

/-- C6: a Google event whose reminders carry `useDefault = false` and no (or
an empty) overrides array maps to the default reminders value, never an empty
custom list; with a non-empty overrides array each entry maps to a
(method, minutes) entry of a custom value. -/
theorem google_reminders_default_not_empty_custom :
    (∀ (item : GoogleCalendarProvider.GoogleEventWire) (cal : String)
        (w : GoogleCalendarProvider.GoogleRemindersWire),
      item.reminders = some w → w.useDefault = some false →
      (w.overrides = none ∨ w.overrides = some []) →
      (GoogleCalendarProvider.mapEvent item cal).reminders
        = some EventReminders.default)
    ∧ (∀ (item : GoogleCalendarProvider.GoogleEventWire) (cal : String)
        (w : GoogleCalendarProvider.GoogleRemindersWire)
        (o : GoogleCalendarProvider.GoogleReminderOverrideWire)
        (os : List GoogleCalendarProvider.GoogleReminderOverrideWire),
      item.reminders = some w → w.useDefault = some false →
      w.overrides = some (o :: os) →
      (GoogleCalendarProvider.mapEvent item cal).reminders
        = some (.custom ((o :: os).map (fun x => ⟨x.method, x.minutes⟩)))) := by
  constructor
  · intro item cal w hw hu ho
    rcases ho with ho | ho <;>
      simp [GoogleCalendarProvider.mapEvent, GoogleCalendarProvider.mapReminders,
        hw, hu, ho]
  · intro item cal w o os hw hu ho
    simp [GoogleCalendarProvider.mapEvent, GoogleCalendarProvider.mapReminders,
      hw, hu, ho]

/-- C6 witness: `useDefault = false` with an empty overrides array maps to the
default reminders value; a two-entry overrides array maps to the two custom
entries. -/
theorem google_reminders_default_not_empty_custom_witness :
    (GoogleCalendarProvider.mapEvent
      ⟨"e1", none, none, none, none, none, none, none, none, none, none, none,
        none, none, some ⟨some false, some []⟩, none⟩ "cal").reminders
      = some EventReminders.default
    ∧ (GoogleCalendarProvider.mapEvent
      ⟨"e1", none, none, none, none, none, none, none, none, none, none, none,
        none, none, some ⟨some false, some [⟨"email", 30⟩, ⟨"popup", 10⟩]⟩,
        none⟩ "cal").reminders
      = some (.custom [⟨"email", 30⟩, ⟨"popup", 10⟩]) :=
  ⟨google_reminders_default_not_empty_custom.1
      ⟨"e1", none, none, none, none, none, none, none, none, none, none, none,
        none, none, some ⟨some false, some []⟩, none⟩ "cal"
      ⟨some false, some []⟩ rfl rfl (Or.inr rfl),
   google_reminders_default_not_empty_custom.2
      ⟨"e1", none, none, none, none, none, none, none, none, none, none, none,
        none, none, some ⟨some false, some [⟨"email", 30⟩, ⟨"popup", 10⟩]⟩,
        none⟩ "cal"
      ⟨some false, some [⟨"email", 30⟩, ⟨"popup", 10⟩]⟩ ⟨"email", 30⟩
      [⟨"popup", 10⟩] rfl rfl rfl⟩

/-- C5: updates are true partial patches on both adapters — every absent input
field stays absent from the upstream write payload — and in particular an
update carrying only `summary = "X"` produces a payload whose every other
field is absent. -/
theorem update_partial_patch :
    (∀ e : UpdateEventParams,
      (e.summary = none → (OutlookCalendarProvider.updateEventPayload e).subject = none)
      ∧ (e.description = none → (OutlookCalendarProvider.updateEventPayload e).body = none)
      ∧ (e.location = none → (OutlookCalendarProvider.updateEventPayload e).location = none)
      ∧ (e.start = none → (OutlookCalendarProvider.updateEventPayload e).start = none
          ∧ (OutlookCalendarProvider.updateEventPayload e).isAllDay = none)
      ∧ (e.«end» = none → (OutlookCalendarProvider.updateEventPayload e).«end» = none)
      ∧ (e.attendees = none → (OutlookCalendarProvider.updateEventPayload e).attendees = none)
      ∧ (e.visibility = none → (OutlookCalendarProvider.updateEventPayload e).sensitivity = none)
      ∧ (e.reminders = none →
          (OutlookCalendarProvider.updateEventPayload e).isReminderOn = none
          ∧ (OutlookCalendarProvider.updateEventPayload e).reminderMinutesBeforeStart = none)
      ∧ (e.recurrence = none → (OutlookCalendarProvider.updateEventPayload e).recurrence = none))
    ∧ (∀ e : UpdateEventParams,
      (e.summary = none → (GoogleCalendarProvider.updateRequestBody e).summary = none)
      ∧ (e.description = none → (GoogleCalendarProvider.updateRequestBody e).description = none)
      ∧ (e.location = none → (GoogleCalendarProvider.updateRequestBody e).location = none)
      ∧ (e.start = none → (GoogleCalendarProvider.updateRequestBody e).start = none)
      ∧ (e.«end» = none → (GoogleCalendarProvider.updateRequestBody e).«end» = none)
      ∧ (e.attendees = none → (GoogleCalendarProvider.updateRequestBody e).attendees = none)
      ∧ (e.visibility = none → (GoogleCalendarProvider.updateRequestBody e).visibility = none)
      ∧ (e.reminders = none → (GoogleCalendarProvider.updateRequestBody e).reminders = none)
      ∧ (e.recurrence = none → (GoogleCalendarProvider.updateRequestBody e).recurrence = none))
    ∧ OutlookCalendarProvider.updateEventPayload
        ⟨some "X", none, none, none, none, none, none, none, none, none⟩
      = ⟨some "X", none, none, none, none, none, none, none, none, none, none⟩
    ∧ GoogleCalendarProvider.updateRequestBody
        ⟨some "X", none, none, none, none, none, none, none, none, none⟩
      = ⟨some "X", none, none, none, none, none, none, none, none⟩ := by
  refine ⟨?_, ?_, by rfl, by rfl⟩
  · intro e
    refine ⟨fun h => ?_, fun h => ?_, fun h => ?_, fun h => ⟨?_, ?_⟩,
      fun h => ?_, fun h => ?_, fun h => ?_, fun h => ⟨?_, ?_⟩, fun h => ?_⟩
      <;> simp [OutlookCalendarProvider.updateEventPayload, h]
  · intro e
    refine ⟨fun h => ?_, fun h => ?_, fun h => ?_, fun h => ?_,
      fun h => ?_, fun h => ?_, fun h => ?_, fun h => ?_, fun h => ?_⟩
      <;> simp [GoogleCalendarProvider.updateRequestBody, h]

/-- C5 witness: the summary-only update payloads evaluated concretely, via the
theorem's closed conjuncts and a frame conjunct applied at a concrete
input. -/
theorem update_partial_patch_witness :
    (OutlookCalendarProvider.updateEventPayload
      ⟨some "X", none, none, none, none, none, none, none, none, none⟩).start
      = none
    ∧ (GoogleCalendarProvider.updateRequestBody
      ⟨some "X", none, none, none, none, none, none, none, none, none⟩).start
      = none :=
  ⟨((update_partial_patch.1
      ⟨some "X", none, none, none, none, none, none, none, none, none⟩).2.2.2.1
      rfl).1,
   (update_partial_patch.2.1
      ⟨some "X", none, none, none, none, none, none, none, none, none⟩).2.2.2.1
      rfl⟩

/-! ## Provider registry (index.ts) and caller-side validation
(src/lib/validation.ts) -/

/-- TS union `ProviderId` (types.ts): "google" | "outlook" | "apple". -/
inductive ProviderId
  | google
  | outlook
  | apple
  deriving DecidableEq, Repr

/-- The runtime string value of a `ProviderId`. -/
def ProviderId.value : ProviderId → String
  | .google => "google"
  | .outlook => "outlook"
  | .apple => "apple"

/-- The two adapter classes registered in `providerMap` (index.ts lines
11-17). -/
inductive ProviderImpl
  | googleProvider
  | outlookProvider
  deriving DecidableEq, Repr

/-- `providerMap` (index.ts lines 11-17): google and outlook have classes;
apple has no entry. -/
def providerMap : ProviderId → Option ProviderImpl
  | .google => some .googleProvider
  | .outlook => some .outlookProvider
  | .apple => none

/-- `UnsupportedProviderError` (index.ts lines 19-24): carries
`name = "UnsupportedProviderError"` and the provider id its message quotes
(the TS message wraps the id in quotation marks). -/
structure UnsupportedProviderError where
  name : String
  providerId : String
  deriving DecidableEq, Repr

/-- The error constructor of index.ts lines 20-23. -/
def mkUnsupportedProviderError (providerId : String) : UnsupportedProviderError :=
  ⟨"UnsupportedProviderError", providerId⟩

/-- An adapter instance: a registered class constructed with the user id
(`new ProviderClass(userId)`, index.ts line 39); construction performs no
network I/O. -/
structure AdapterInstance where
  impl : ProviderImpl
  userId : String
  deriving DecidableEq, Repr

/-- `getCalendarProvider` (index.ts lines 26-40). -/
def getCalendarProvider (userId : String) (providerId : ProviderId) :
    Except UnsupportedProviderError AdapterInstance :=
  match providerMap providerId with
  | some impl => Except.ok ⟨impl, userId⟩
  | none =>
    if providerId = ProviderId.apple then
      Except.error (mkUnsupportedProviderError "apple")
    else Except.error (mkUnsupportedProviderError providerId.value)

/-- `providerIdValues` (src/lib/validation.ts): `Object.values(ProviderId)`. -/
def providerIdValues : List String := ["google", "outlook", "apple"]

/-- `value.toLowerCase()` modelled characterwise (the library
`String.toLower` is equal but does not reduce in the kernel). -/
def toLowerString (s : String) : String :=
  String.mk (s.data.map Char.toLower)

/-- `validateProviderId` (src/lib/validation.ts): lowercase the input and
accept only members of `providerIdValues`; a `none` answer makes the route
reply 400 before the registry is reached. -/
def validateProviderId (value : String) : Option String :=
  let normalized := toLowerString value
  if normalized ∈ providerIdValues then some normalized else none

/-- C8: the registry answers "apple" with the distinguished
UnsupportedProviderError; the unknown identifier "bogus" is rejected by the
callers' `validateProviderId` before the registry is reached, while "apple"
passes that validation; the implemented providers construct instances. -/
theorem getCalendarProvider_apple_unsupported :
    (∀ userId : String,
      getCalendarProvider userId ProviderId.apple
        = Except.error ⟨"UnsupportedProviderError", "apple"⟩)
    ∧ validateProviderId "apple" = some "apple"
    ∧ validateProviderId "bogus" = none
    ∧ (∀ userId : String,
      getCalendarProvider userId ProviderId.google
          = Except.ok ⟨.googleProvider, userId⟩
        ∧ getCalendarProvider userId ProviderId.outlook
          = Except.ok ⟨.outlookProvider, userId⟩) :=
  ⟨fun _ => rfl, by decide, by decide, fun _ => ⟨rfl, rfl⟩⟩

/-! ## RFC 5545 string decoding (spec-modelled)

The repository has no RFC 5545 string → canonical decoder under src: the read
path stores raw RRULE strings on the event (google.ts line 203). Spec section
4.1 specifies that direction as the inverse of the encoder, with unknown or
unsupported FREQ values rejected as a parse failure. The decoder below is
modelled from those spec words, working on character lists. -/

/-- Split a character list at every occurrence of `sep`; the result is always
non-empty and rejoining with `sep` restores the input. -/
def splitOnChar (sep : Char) : List Char → List (List Char)
  | [] => [[]]
  | c :: cs =>
    if c = sep then [] :: splitOnChar sep cs
    else
      match splitOnChar sep cs with
      | [] => [[c]]
      | t :: ts => (c :: t) :: ts

/-- Strip an expected prefix from a character list, `none` on mismatch. -/
def dropPrefixL : List Char → List Char → Option (List Char)
  | [], rest => some rest
  | _ :: _, [] => none
  | p :: ps, c :: cs => if c = p then dropPrefixL ps cs else none

/-- The numeric value of a decimal digit character. -/
def digitVal (c : Char) : Nat := c.toNat - 48

/-- Accumulating decimal parser: fails on any non-digit character. -/
def parseNatAux : Nat → List Char → Option Nat
  | acc, [] => some acc
  | acc, c :: cs =>
    if c.isDigit then parseNatAux (acc * 10 + digitVal c) cs else none

/-- Decimal parser: a non-empty all-digit character list. -/
def parseNatChars : List Char → Option Nat
  | [] => none
  | c :: cs => parseNatAux 0 (c :: cs)

/-- Modelled from the spec: the inverse of the encoder's FREQ emission. -/
def freqOfUpper (l : List Char) : Option RecurrenceFrequency :=
  if l = "DAILY".data then some .daily
  else if l = "WEEKLY".data then some .weekly
  else if l = "MONTHLY".data then some .monthly
  else if l = "YEARLY".data then some .yearly
  else none

/-- Modelled from the spec: the inverse of the weekday-code emission. -/
def weekdayOfCode (l : List Char) : Option Weekday :=
  if l = "MO".data then some .mo
  else if l = "TU".data then some .tu
  else if l = "WE".data then some .we
  else if l = "TH".data then some .th
  else if l = "FR".data then some .fr
  else if l = "SA".data then some .sa
  else if l = "SU".data then some .su
  else none

/-- Collect a list of optional values, failing when any is absent. -/
def sequenceOptions {α : Type} : List (Option α) → Option (List α)
  | [] => some []
  | o :: os =>
    match o, sequenceOptions os with
    | some a, some rest => some (a :: rest)
    | _, _ => none

/-- Modelled from the spec: reinsert the separators the encoder strips from an
UNTIL value — YYYYMMDD becomes YYYY-MM-DD, and YYYYMMDDTHHMMSSZ becomes
YYYY-MM-DDTHH:MM:SSZ; anything else is a parse failure. -/
def unstripUntil (l : List Char) : Option String :=
  match l with
  | [y1, y2, y3, y4, m1, m2, d1, d2] =>
    if [y1, y2, y3, y4, m1, m2, d1, d2].all Char.isDigit then
      some (String.mk [y1, y2, y3, y4, '-', m1, m2, '-', d1, d2])
    else none
  | [y1, y2, y3, y4, m1, m2, d1, d2, t, h1, h2, mi1, mi2, s1, s2, z] =>
    if (t == 'T') && (z == 'Z')
        && [y1, y2, y3, y4, m1, m2, d1, d2, h1, h2, mi1, mi2, s1, s2].all
          Char.isDigit then
      some (String.mk
        [y1, y2, y3, y4, '-', m1, m2, '-', d1, d2, 'T', h1, h2, ':', mi1, mi2,
          ':', s1, s2, 'Z'])
    else none
  | _ => none

/-- Intermediate decoder state: the parts seen so far. -/
structure PartialRule where
  frequency : Option RecurrenceFrequency
  interval : Option Nat
  recEnd : Option RecurrenceEnd
  byDay : List Weekday
  byMonthDay : List Nat
  byMonth : List Nat
  deriving DecidableEq, Repr

/-- Modelled from the spec: decode one `KEY=value` part into the state;
an unrecognized key or malformed value is a parse failure. -/
def parseRrulePart (st : PartialRule) (part : List Char) : Option PartialRule :=
  match dropPrefixL "FREQ=".data part with
  | some v => (freqOfUpper v).map (fun f => { st with frequency := some f })
  | none =>
  match dropPrefixL "INTERVAL=".data part with
  | some v => (parseNatChars v).map (fun n => { st with interval := some n })
  | none =>
  match dropPrefixL "COUNT=".data part with
  | some v =>
    (parseNatChars v).map (fun n => { st with recEnd := some (RecurrenceEnd.count n) })
  | none =>
  match dropPrefixL "UNTIL=".data part with
  | some v =>
    (unstripUntil v).map (fun u => { st with recEnd := some (RecurrenceEnd.«until» u) })
  | none =>
  match dropPrefixL "BYDAY=".data part with
  | some v =>
    (sequenceOptions ((splitOnChar ',' v).map weekdayOfCode)).map
      (fun ds => { st with byDay := ds })
  | none =>
  match dropPrefixL "BYMONTHDAY=".data part with
  | some v =>
    (sequenceOptions ((splitOnChar ',' v).map parseNatChars)).map
      (fun ns => { st with byMonthDay := ns })
  | none =>
  match dropPrefixL "BYMONTH=".data part with
  | some v =>
    (sequenceOptions ((splitOnChar ',' v).map parseNatChars)).map
      (fun ns => { st with byMonth := ns })
  | none => none

/-- Fold the decoder over the ';'-separated parts. -/
def parseRruleParts (st : PartialRule) : List (List Char) → Option PartialRule
  | [] => some st
  | p :: ps =>
    match parseRrulePart st p with
    | none => none
    | some st2 => parseRruleParts st2 ps

/-- The decoder after the "RRULE:" prefix: split on ';', fold the part
decoder, and require a FREQ part; the absence of a termination clause reads as
an absent end (the forever mode). -/
def parseRruleBody (body : List Char) : Option RecurrenceRule :=
  match parseRruleParts ⟨none, none, none, [], [], []⟩ (splitOnChar ';' body) with
  | none => none
  | some st =>
    match st.frequency with
    | none => none
    | some f => some ⟨f, st.interval, st.recEnd, st.byDay, st.byMonthDay, st.byMonth⟩

/-- Modelled from the spec: the RFC 5545 string → canonical decoder, inverse
of `buildRruleString`. It requires the "RRULE:" prefix and a FREQ part, and
maps unknown or unsupported FREQ values to a parse failure (`none`). -/
def parseRruleString (s : String) : Option RecurrenceRule :=
  match dropPrefixL "RRULE:".data s.data with
  | none => none
  | some body => parseRruleBody body

example :
    parseRruleString "RRULE:FREQ=WEEKLY;INTERVAL=2;COUNT=20;BYDAY=MO,FR"
      = some ⟨.weekly, some 2, some (.count 20), [.mo, .fr], [], []⟩ := by decide

example : parseRruleString "RRULE:FREQ=DAILY" = some ⟨.daily, none, none, [], [], []⟩ := by
  decide

example :
    parseRruleString "RRULE:FREQ=MONTHLY;UNTIL=20241231"
      = some ⟨.monthly, none, some (.«until» "2024-12-31"), [], [], []⟩ := by decide

example :
    parseRruleString "RRULE:FREQ=MONTHLY;UNTIL=20241231T235959Z"
      = some ⟨.monthly, none, some (.«until» "2024-12-31T23:59:59Z"), [], [], []⟩ := by
  decide

example : parseRruleString "RRULE:FREQ=HOURLY" = none := by decide

example : parseRruleString "RRULE:FREQ=SECONDLY;COUNT=3" = none := by decide

/-! ## Decimal printing inverts decimal parsing

`buildRruleString` prints numbers with `Nat.repr`; the lemmas below show the
decoder's `parseNatChars` reads them back. -/

/-- Most-significant-first decimal digits of a natural number. -/
def digitsOf (n : Nat) : List Char :=
  if h : n < 10 then [Nat.digitChar n]
  else
    have : n / 10 < n := Nat.div_lt_self (by omega) (by omega)
    digitsOf (n / 10) ++ [Nat.digitChar (n % 10)]
termination_by n

theorem digitChar_facts :
    ∀ d : Nat, d < 10 →
      (Nat.digitChar d).isDigit = true ∧ digitVal (Nat.digitChar d) = d := by
  decide

theorem digitsOf_lt (n : Nat) (h : n < 10) : digitsOf n = [Nat.digitChar n] := by
  rw [digitsOf]
  simp [h]

theorem digitsOf_ge (n : Nat) (h : ¬ n < 10) :
    digitsOf n = digitsOf (n / 10) ++ [Nat.digitChar (n % 10)] := by
  rw [digitsOf]
  simp [h]

theorem digitsOf_all_digit (n : Nat) : (digitsOf n).all Char.isDigit = true := by
  induction n using Nat.strong_induction_on with
  | _ n ih =>
    by_cases h : n < 10
    · rw [digitsOf_lt n h]
      simp [(digitChar_facts n h).1]
    · rw [digitsOf_ge n h]
      have hdiv : n / 10 < n := Nat.div_lt_self (by omega) (by omega)
      have hmod : n % 10 < 10 := Nat.mod_lt _ (by omega)
      simp [ih (n / 10) hdiv, (digitChar_facts (n % 10) hmod).1]

theorem parseNatAux_append (acc : Nat) (xs ys : List Char) :
    parseNatAux acc (xs ++ ys)
      = match parseNatAux acc xs with
        | some m => parseNatAux m ys
        | none => none := by
  induction xs generalizing acc with
  | nil => simp [parseNatAux]
  | cons c cs ih =>
    by_cases hc : c.isDigit
    · simp only [List.cons_append, parseNatAux, hc, if_true]
      exact ih _
    · simp [parseNatAux, hc]

theorem parseNatAux_digitsOf (n : Nat) :
    ∀ acc, parseNatAux acc (digitsOf n)
      = some (acc * 10 ^ (digitsOf n).length + n) := by
  induction n using Nat.strong_induction_on with
  | _ n ih =>
    intro acc
    by_cases h : n < 10
    · rw [digitsOf_lt n h]
      simp [parseNatAux, (digitChar_facts n h).1, (digitChar_facts n h).2]
    · have hdiv : n / 10 < n := Nat.div_lt_self (by omega) (by omega)
      have hmod : n % 10 < 10 := Nat.mod_lt _ (by omega)
      rw [digitsOf_ge n h, parseNatAux_append, ih (n / 10) hdiv acc]
      simp only [parseNatAux, (digitChar_facts (n % 10) hmod).1, if_true,
        (digitChar_facts (n % 10) hmod).2, List.length_append,
        List.length_cons, List.length_nil]
      congr 1
      have hsplit : n / 10 * 10 + n % 10 = n := by omega
      calc (acc * 10 ^ (digitsOf (n / 10)).length + n / 10) * 10 + n % 10
          = acc * (10 ^ (digitsOf (n / 10)).length * 10)
              + (n / 10 * 10 + n % 10) := by ring
        _ = acc * 10 ^ ((digitsOf (n / 10)).length + (0 + 1)) + n := by
              rw [hsplit, pow_succ]

theorem parseNatChars_digitsOf (n : Nat) : parseNatChars (digitsOf n) = some n := by
  have hcons : ∃ c cs, digitsOf n = c :: cs := by
    by_cases h : n < 10
    · exact ⟨Nat.digitChar n, [], digitsOf_lt n h⟩
    · rw [digitsOf_ge n h]
      cases hd : digitsOf (n / 10) with
      | nil =>
        exfalso
        by_cases h2 : n / 10 < 10
        · rw [digitsOf_lt _ h2] at hd
          exact absurd hd (by simp)
        · rw [digitsOf_ge _ h2] at hd
          exact absurd hd (by simp)
      | cons c cs => exact ⟨c, cs ++ [Nat.digitChar (n % 10)], by simp⟩
  obtain ⟨c, cs, hd⟩ := hcons
  have := parseNatAux_digitsOf n 0
  rw [hd] at this ⊢
  simpa [parseNatChars] using this

theorem toDigitsCore_eq_digitsOf :
    ∀ (f n : Nat) (acc : List Char), n < 10 ^ (f + 1) →
      Nat.toDigitsCore 10 (f + 1) n acc = digitsOf n ++ acc := by
  intro f
  induction f with
  | zero =>
    intro n acc h
    have h10 : n < 10 := by simpa using h
    have hdiv : n / 10 = 0 := Nat.div_eq_of_lt h10
    simp [Nat.toDigitsCore, hdiv, digitsOf_lt n h10, Nat.mod_eq_of_lt h10]
  | succ f ih =>
    intro n acc h
    by_cases h10 : n < 10
    · have hdiv : n / 10 = 0 := Nat.div_eq_of_lt h10
      simp [Nat.toDigitsCore, hdiv, digitsOf_lt n h10, Nat.mod_eq_of_lt h10]
    · have hdiv : ¬ n / 10 = 0 := by omega
      have hlt : n / 10 < 10 ^ (f + 1) := by
        rw [Nat.div_lt_iff_lt_mul (by omega : 0 < 10)]
        calc n < 10 ^ (f + 1 + 1) := h
          _ = 10 ^ (f + 1) * 10 := by rw [pow_succ]
      rw [Nat.toDigitsCore]
      simp only [hdiv, if_false]
      rw [ih (n / 10) (Nat.digitChar (n % 10) :: acc) hlt, digitsOf_ge n h10]
      simp

theorem repr_data_eq_digitsOf (n : Nat) : (Nat.repr n).data = digitsOf n := by
  have h : n < 10 ^ (n + 1) := by
    calc n < 10 ^ n := Nat.lt_pow_self (by norm_num) n
      _ ≤ 10 ^ (n + 1) := Nat.pow_le_pow_right (by norm_num) (Nat.le_succ n)
  show ((Nat.toDigits 10 n).asString).data = digitsOf n
  rw [Nat.toDigits, toDigitsCore_eq_digitsOf n n [] h]
  simp [List.asString]

theorem parseNatChars_repr (n : Nat) : parseNatChars (Nat.repr n).data = some n := by
  rw [repr_data_eq_digitsOf]
  exact parseNatChars_digitsOf n

theorem repr_all_digit (n : Nat) : ((Nat.repr n).data).all Char.isDigit = true := by
  rw [repr_data_eq_digitsOf]
  exact digitsOf_all_digit n

/-! ## Splitting and prefix lemmas for the round trip -/

theorem dropPrefixL_append (p rest : List Char) :
    dropPrefixL p (p ++ rest) = some rest := by
  induction p with
  | nil => rfl
  | cons c cs ih => simp [dropPrefixL, ih]

theorem splitOnChar_no_sep (sep : Char) (xs : List Char)
    (h : ∀ c ∈ xs, c ≠ sep) : splitOnChar sep xs = [xs] := by
  induction xs with
  | nil => rfl
  | cons c cs ih =>
    have hc : c ≠ sep := h c (by simp)
    have ih2 := ih (fun d hd => h d (by simp [hd]))
    simp [splitOnChar, hc, ih2]

theorem splitOnChar_append (sep : Char) (xs ys : List Char)
    (h : ∀ c ∈ xs, c ≠ sep) :
    splitOnChar sep (xs ++ sep :: ys) = xs :: splitOnChar sep ys := by
  induction xs with
  | nil => simp [splitOnChar]
  | cons c cs ih =>
    have hc : c ≠ sep := h c (by simp)
    have ih2 := ih (fun d hd => h d (by simp [hd]))
    simp [splitOnChar, hc, ih2]

theorem digit_not_semi {c : Char} (h : c.isDigit = true) : c ≠ ';' := by
  rintro rfl
  exact absurd h (by decide)

theorem digit_not_dot {c : Char} (h : c.isDigit = true) : c ≠ '.' := by
  rintro rfl
  exact absurd h (by decide)

theorem digit_not_dashColon {c : Char} (h : c.isDigit = true) :
    isDashColon c = false := by
  cases hdc : isDashColon c with
  | false => rfl
  | true =>
    exfalso
    simp only [isDashColon, Bool.or_eq_true, beq_iff_eq] at hdc
    rcases hdc with rfl | rfl <;> exact absurd h (by decide)

theorem dropDot3_no_dot (l : List Char) (h : ∀ c ∈ l, c ≠ '.') :
    dropDot3 l = l := by
  induction l with
  | nil => rfl
  | cons c cs ih =>
    have hc : c ≠ '.' := h c (by simp)
    simp [dropDot3, hc, ih (fun d hd => h d (by simp [hd]))]

/-! ## Canonical UNTIL values round-trip through strip and unstrip -/

/-- An until value in canonical ISO calendar-date form YYYY-MM-DD. -/
def CanonicalUntilDate (s : String) : Prop :=
  ∃ y1 y2 y3 y4 m1 m2 d1 d2 : Char,
    s.data = [y1, y2, y3, y4, '-', m1, m2, '-', d1, d2]
    ∧ [y1, y2, y3, y4, m1, m2, d1, d2].all Char.isDigit = true

/-- An until value in canonical UTC date-time form YYYY-MM-DDTHH:MM:SSZ,
without sub-second precision. -/
def CanonicalUntilDateTime (s : String) : Prop :=
  ∃ y1 y2 y3 y4 m1 m2 d1 d2 h1 h2 mi1 mi2 s1 s2 : Char,
    s.data = [y1, y2, y3, y4, '-', m1, m2, '-', d1, d2, 'T', h1, h2, ':', mi1,
      mi2, ':', s1, s2, 'Z']
    ∧ [y1, y2, y3, y4, m1, m2, d1, d2, h1, h2, mi1, mi2, s1, s2].all
        Char.isDigit = true

theorem stripUntil_date (s : String) (h : CanonicalUntilDate s) :
    ∃ y1 y2 y3 y4 m1 m2 d1 d2 : Char,
      s.data = [y1, y2, y3, y4, '-', m1, m2, '-', d1, d2]
      ∧ [y1, y2, y3, y4, m1, m2, d1, d2].all Char.isDigit = true
      ∧ (stripUntil s).data = [y1, y2, y3, y4, m1, m2, d1, d2] := by
  obtain ⟨y1, y2, y3, y4, m1, m2, d1, d2, hdata, hdig⟩ := h
  refine ⟨y1, y2, y3, y4, m1, m2, d1, d2, hdata, hdig, ?_⟩
  have hall := List.all_eq_true.mp hdig
  have hy1 := hall y1 (by simp)
  have hy2 := hall y2 (by simp)
  have hy3 := hall y3 (by simp)
  have hy4 := hall y4 (by simp)
  have hm1 := hall m1 (by simp)
  have hm2 := hall m2 (by simp)
  have hd1 := hall d1 (by simp)
  have hd2 := hall d2 (by simp)
  have hdashself : isDashColon '-' = true := by decide
  have hfilter : s.data.filter (fun c => !(isDashColon c))
      = [y1, y2, y3, y4, m1, m2, d1, d2] := by
    rw [hdata]
    simp [List.filter_cons, digit_not_dashColon hy1, digit_not_dashColon hy2,
      digit_not_dashColon hy3, digit_not_dashColon hy4,
      digit_not_dashColon hm1, digit_not_dashColon hm2,
      digit_not_dashColon hd1, digit_not_dashColon hd2, hdashself]
  have hnodot : ∀ c ∈ [y1, y2, y3, y4, m1, m2, d1, d2], c ≠ '.' := by
    intro c hc
    exact digit_not_dot (hall c hc)
  show (String.mk (dropDot3 (s.data.filter (fun c => !(isDashColon c))))).data
      = _
  rw [hfilter, dropDot3_no_dot _ hnodot]

theorem unstrip_strip_date (s : String) (h : CanonicalUntilDate s) :
    unstripUntil (stripUntil s).data = some s := by
  obtain ⟨y1, y2, y3, y4, m1, m2, d1, d2, hdata, hdig, hstrip⟩ :=
    stripUntil_date s h
  rw [hstrip]
  simp only [unstripUntil, hdig, if_true]
  congr 1
  cases s with
  | mk data =>
    simp only at hdata
    rw [hdata]

theorem stripUntil_dateTime (s : String) (h : CanonicalUntilDateTime s) :
    ∃ y1 y2 y3 y4 m1 m2 d1 d2 h1 h2 mi1 mi2 s1 s2 : Char,
      s.data = [y1, y2, y3, y4, '-', m1, m2, '-', d1, d2, 'T', h1, h2, ':',
        mi1, mi2, ':', s1, s2, 'Z']
      ∧ [y1, y2, y3, y4, m1, m2, d1, d2, h1, h2, mi1, mi2, s1, s2].all
          Char.isDigit = true
      ∧ (stripUntil s).data
        = [y1, y2, y3, y4, m1, m2, d1, d2, 'T', h1, h2, mi1, mi2, s1, s2, 'Z'] := by
  obtain ⟨y1, y2, y3, y4, m1, m2, d1, d2, h1, h2, mi1, mi2, s1, s2, hdata,
    hdig⟩ := h
  refine ⟨y1, y2, y3, y4, m1, m2, d1, d2, h1, h2, mi1, mi2, s1, s2, hdata,
    hdig, ?_⟩
  have hall := List.all_eq_true.mp hdig
  have hy1 := hall y1 (by simp)
  have hy2 := hall y2 (by simp)
  have hy3 := hall y3 (by simp)
  have hy4 := hall y4 (by simp)
  have hm1 := hall m1 (by simp)
  have hm2 := hall m2 (by simp)
  have hd1 := hall d1 (by simp)
  have hd2 := hall d2 (by simp)
  have hh1 := hall h1 (by simp)
  have hh2 := hall h2 (by simp)
  have hmi1 := hall mi1 (by simp)
  have hmi2 := hall mi2 (by simp)
  have hs1 := hall s1 (by simp)
  have hs2 := hall s2 (by simp)
  have hdashself : isDashColon '-' = true := by decide
  have hcolonself : isDashColon ':' = true := by decide
  have hT : isDashColon 'T' = false := by decide
  have hZ : isDashColon 'Z' = false := by decide
  have hfilter : s.data.filter (fun c => !(isDashColon c))
      = [y1, y2, y3, y4, m1, m2, d1, d2, 'T', h1, h2, mi1, mi2, s1, s2, 'Z'] := by
    rw [hdata]
    simp [List.filter_cons, digit_not_dashColon hy1, digit_not_dashColon hy2,
      digit_not_dashColon hy3, digit_not_dashColon hy4,
      digit_not_dashColon hm1, digit_not_dashColon hm2,
      digit_not_dashColon hd1, digit_not_dashColon hd2,
      digit_not_dashColon hh1, digit_not_dashColon hh2,
      digit_not_dashColon hmi1, digit_not_dashColon hmi2,
      digit_not_dashColon hs1, digit_not_dashColon hs2,
      hdashself, hcolonself, hT, hZ]
  have hnodot : ∀ c ∈ [y1, y2, y3, y4, m1, m2, d1, d2, 'T', h1, h2, mi1, mi2,
      s1, s2, 'Z'], c ≠ '.' := by
    intro c hc
    simp only [List.mem_cons, List.not_mem_nil, or_false] at hc
    rcases hc with rfl | rfl | rfl | rfl | rfl | rfl | rfl | rfl | rfl | rfl
      | rfl | rfl | rfl | rfl | rfl | rfl
    · exact digit_not_dot hy1
    · exact digit_not_dot hy2
    · exact digit_not_dot hy3
    · exact digit_not_dot hy4
    · exact digit_not_dot hm1
    · exact digit_not_dot hm2
    · exact digit_not_dot hd1
    · exact digit_not_dot hd2
    · decide
    · exact digit_not_dot hh1
    · exact digit_not_dot hh2
    · exact digit_not_dot hmi1
    · exact digit_not_dot hmi2
    · exact digit_not_dot hs1
    · exact digit_not_dot hs2
    · decide
  show (String.mk (dropDot3 (s.data.filter (fun c => !(isDashColon c))))).data
      = _
  rw [hfilter, dropDot3_no_dot _ hnodot]

theorem unstrip_strip_dateTime (s : String) (h : CanonicalUntilDateTime s) :
    unstripUntil (stripUntil s).data = some s := by
  obtain ⟨y1, y2, y3, y4, m1, m2, d1, d2, h1, h2, mi1, mi2, s1, s2, hdata,
    hdig, hstrip⟩ := stripUntil_dateTime s h
  rw [hstrip]
  simp only [unstripUntil, hdig, Bool.and_true, Bool.and_self, beq_self_eq_true,
    Bool.true_and, if_true]
  congr 1
  cases s with
  | mk data =>
    simp only at hdata
    rw [hdata]

/-! ## Part-level decoding lemmas -/

theorem parseRruleString_append (rest : String) :
    parseRruleString ("RRULE:" ++ rest) = parseRruleBody rest.data := by
  unfold parseRruleString
  rw [String.data_append, dropPrefixL_append]

theorem parseRruleParts_nil (st : PartialRule) : parseRruleParts st [] = some st :=
  rfl

theorem parseRruleParts_eq_bind (st : PartialRule) (p : List Char)
    (ps : List (List Char)) :
    parseRruleParts st (p :: ps)
      = (parseRrulePart st p).bind (fun st2 => parseRruleParts st2 ps) := by
  cases h : parseRrulePart st p <;> simp [parseRruleParts, h]

theorem parseRrulePart_freq (st : PartialRule) (f : RecurrenceFrequency) :
    parseRrulePart st ("FREQ=" ++ rruleFreqMap f).data
      = some { st with frequency := some f } := by
  cases f <;> rfl

theorem parseRrulePart_interval_raw (st : PartialRule) (v : List Char) :
    parseRrulePart st ("INTERVAL=".data ++ v)
      = (parseNatChars v).map (fun m => { st with interval := some m }) := rfl

theorem parseRrulePart_interval (st : PartialRule) (n : Nat) :
    parseRrulePart st ("INTERVAL=" ++ Nat.repr n).data
      = some { st with interval := some n } := by
  rw [String.data_append, parseRrulePart_interval_raw, parseNatChars_repr n]
  rfl

theorem parseRrulePart_count_raw (st : PartialRule) (v : List Char) :
    parseRrulePart st ("COUNT=".data ++ v)
      = (parseNatChars v).map
          (fun m => { st with recEnd := some (RecurrenceEnd.count m) }) := rfl

theorem parseRrulePart_count (st : PartialRule) (n : Nat) :
    parseRrulePart st ("COUNT=" ++ Nat.repr n).data
      = some { st with recEnd := some (RecurrenceEnd.count n) } := by
  rw [String.data_append, parseRrulePart_count_raw, parseNatChars_repr n]
  rfl

theorem parseRrulePart_until (st : PartialRule) (u : String) :
    parseRrulePart st ("UNTIL=" ++ stripUntil u).data
      = (unstripUntil (stripUntil u).data).map
          (fun w => { st with recEnd := some (RecurrenceEnd.«until» w) }) := by
  rw [String.data_append]
  rfl

/-! ## Semicolon-freedom of encoded parts -/

theorem noSemi_freq (f : RecurrenceFrequency) :
    ∀ c ∈ ("FREQ=" ++ rruleFreqMap f).data, c ≠ ';' := by
  cases f <;> decide

theorem noSemi_num (p : String) (hp : ∀ c ∈ p.data, c ≠ ';') (n : Nat) :
    ∀ c ∈ (p ++ Nat.repr n).data, c ≠ ';' := by
  intro c hc
  rw [String.data_append] at hc
  rcases List.mem_append.mp hc with h | h
  · exact hp c h
  · exact digit_not_semi (List.all_eq_true.mp (repr_all_digit n) c h)

theorem noSemi_until (u : String)
    (h : CanonicalUntilDate u ∨ CanonicalUntilDateTime u) :
    ∀ c ∈ ("UNTIL=" ++ stripUntil u).data, c ≠ ';' := by
  intro c hc
  rw [String.data_append] at hc
  rcases List.mem_append.mp hc with hc2 | hc2
  · have hpre : ∀ d ∈ ("UNTIL=" : String).data, d ≠ ';' := by decide
    exact hpre c hc2
  · rcases h with h | h
    · obtain ⟨y1, y2, y3, y4, m1, m2, d1, d2, -, hdig, hstrip⟩ :=
        stripUntil_date u h
      rw [hstrip] at hc2
      exact digit_not_semi (List.all_eq_true.mp hdig c hc2)
    · obtain ⟨y1, y2, y3, y4, m1, m2, d1, d2, h1, h2, mi1, mi2, s1, s2, -,
        hdig, hstrip⟩ := stripUntil_dateTime u h
      rw [hstrip] at hc2
      have hall := List.all_eq_true.mp hdig
      simp only [List.mem_cons, List.not_mem_nil, or_false] at hc2
      rcases hc2 with rfl | rfl | rfl | rfl | rfl | rfl | rfl | rfl | rfl | rfl
        | rfl | rfl | rfl | rfl | rfl | rfl <;>
        first
          | decide
          | exact digit_not_semi (hall c (by simp))

/-- C4 (amended): every RecurrenceRule with no byDay/byMonthDay/byMonth, an
interval that is absent or greater than 1, and a single termination mode —
count, until in canonical ISO form (YYYY-MM-DD or YYYY-MM-DDTHH:MM:SSZ with no
sub-second part), or forever represented by an absent end — round-trips
through the RFC 5545 encode then the spec-modelled decode to an equal rule;
the decoder rejects unknown or unsupported FREQ values as a parse failure. -/
theorem rrule_encode_decode_roundtrip :
    (∀ rule : RecurrenceRule,
      rule.byDay = [] → rule.byMonthDay = [] → rule.byMonth = [] →
      (rule.interval = none ∨ ∃ n, rule.interval = some n ∧ 1 < n) →
      (rule.recEnd = none
        ∨ (∃ n, rule.recEnd = some (RecurrenceEnd.count n))
        ∨ (∃ u, rule.recEnd = some (RecurrenceEnd.«until» u)
            ∧ (CanonicalUntilDate u ∨ CanonicalUntilDateTime u))) →
      parseRruleString (buildRruleString rule) = some rule)
    ∧ parseRruleString "RRULE:FREQ=HOURLY" = none
    ∧ parseRruleString "RRULE:FREQ=BOGUS;COUNT=3" = none := by
  refine ⟨?_, by decide, by decide⟩
  rintro ⟨f, i, e, bd, bmd, bm⟩ hbd hbmd hbm hint hend
  simp only at hbd hbmd hbm
  subst hbd
  subst hbmd
  subst hbm
  simp only at hint hend
  have hsemi : (";" : String).data = [';'] := rfl
  rcases hend with rfl | ⟨m, rfl⟩ | ⟨u, rfl, hcanon⟩
  · rcases hint with rfl | ⟨n, rfl, hn⟩
    · -- no interval, forever
      have hbuild : buildRruleString ⟨f, none, none, [], [], []⟩
          = "RRULE:" ++ ("FREQ=" ++ rruleFreqMap f) := rfl
      rw [hbuild, parseRruleString_append]
      have hsplit : splitOnChar ';' ("FREQ=" ++ rruleFreqMap f).data
          = [("FREQ=" ++ rruleFreqMap f).data] :=
        splitOnChar_no_sep _ _ (noSemi_freq f)
      simp only [parseRruleBody, hsplit, parseRruleParts_eq_bind,
        parseRrulePart_freq, Option.some_bind, parseRruleParts_nil]
    · -- interval, forever
      have hbuild : buildRruleString ⟨f, some n, none, [], [], []⟩
          = "RRULE:" ++ String.intercalate ";"
              ["FREQ=" ++ rruleFreqMap f, "INTERVAL=" ++ Nat.repr n] := by
        simp [buildRruleString, hn]
      rw [hbuild, parseRruleString_append]
      have hdata : (String.intercalate ";"
          ["FREQ=" ++ rruleFreqMap f, "INTERVAL=" ++ Nat.repr n]).data
          = ("FREQ=" ++ rruleFreqMap f).data
              ++ ';' :: ("INTERVAL=" ++ Nat.repr n).data := by
        show (("FREQ=" ++ rruleFreqMap f) ++ ";"
          ++ ("INTERVAL=" ++ Nat.repr n)).data = _
        simp [String.data_append, hsemi]
      have hsplit : splitOnChar ';' (("FREQ=" ++ rruleFreqMap f).data
          ++ ';' :: ("INTERVAL=" ++ Nat.repr n).data)
          = [("FREQ=" ++ rruleFreqMap f).data,
              ("INTERVAL=" ++ Nat.repr n).data] := by
        rw [splitOnChar_append _ _ _ (noSemi_freq f),
          splitOnChar_no_sep _ _ (noSemi_num "INTERVAL=" (by decide) n)]
      simp only [parseRruleBody, hdata, hsplit, parseRruleParts_eq_bind,
        parseRrulePart_freq, parseRrulePart_interval, Option.some_bind,
        parseRruleParts_nil]
  · rcases hint with rfl | ⟨n, rfl, hn⟩
    · -- no interval, count
      have hbuild : buildRruleString ⟨f, none, some (RecurrenceEnd.count m), [], [], []⟩
          = "RRULE:" ++ String.intercalate ";"
              ["FREQ=" ++ rruleFreqMap f, "COUNT=" ++ Nat.repr m] := rfl
      rw [hbuild, parseRruleString_append]
      have hdata : (String.intercalate ";"
          ["FREQ=" ++ rruleFreqMap f, "COUNT=" ++ Nat.repr m]).data
          = ("FREQ=" ++ rruleFreqMap f).data
              ++ ';' :: ("COUNT=" ++ Nat.repr m).data := by
        show (("FREQ=" ++ rruleFreqMap f) ++ ";"
          ++ ("COUNT=" ++ Nat.repr m)).data = _
        simp [String.data_append, hsemi]
      have hsplit : splitOnChar ';' (("FREQ=" ++ rruleFreqMap f).data
          ++ ';' :: ("COUNT=" ++ Nat.repr m).data)
          = [("FREQ=" ++ rruleFreqMap f).data, ("COUNT=" ++ Nat.repr m).data] := by
        rw [splitOnChar_append _ _ _ (noSemi_freq f),
          splitOnChar_no_sep _ _ (noSemi_num "COUNT=" (by decide) m)]
      simp only [parseRruleBody, hdata, hsplit, parseRruleParts_eq_bind,
        parseRrulePart_freq, parseRrulePart_count, Option.some_bind,
        parseRruleParts_nil]
    · -- interval, count
      have hbuild : buildRruleString ⟨f, some n, some (RecurrenceEnd.count m), [], [], []⟩
          = "RRULE:" ++ String.intercalate ";"
              ["FREQ=" ++ rruleFreqMap f, "INTERVAL=" ++ Nat.repr n,
                "COUNT=" ++ Nat.repr m] := by
        simp [buildRruleString, hn]
      rw [hbuild, parseRruleString_append]
      have hdata : (String.intercalate ";"
          ["FREQ=" ++ rruleFreqMap f, "INTERVAL=" ++ Nat.repr n,
            "COUNT=" ++ Nat.repr m]).data
          = ("FREQ=" ++ rruleFreqMap f).data
              ++ ';' :: (("INTERVAL=" ++ Nat.repr n).data
                ++ ';' :: ("COUNT=" ++ Nat.repr m).data) := by
        show (("FREQ=" ++ rruleFreqMap f) ++ ";" ++ ("INTERVAL=" ++ Nat.repr n)
          ++ ";" ++ ("COUNT=" ++ Nat.repr m)).data = _
        simp [String.data_append, hsemi]
      have hsplit : splitOnChar ';' (("FREQ=" ++ rruleFreqMap f).data
          ++ ';' :: (("INTERVAL=" ++ Nat.repr n).data
            ++ ';' :: ("COUNT=" ++ Nat.repr m).data))
          = [("FREQ=" ++ rruleFreqMap f).data,
              ("INTERVAL=" ++ Nat.repr n).data,
              ("COUNT=" ++ Nat.repr m).data] := by
        rw [splitOnChar_append _ _ _ (noSemi_freq f),
          splitOnChar_append _ _ _ (noSemi_num "INTERVAL=" (by decide) n),
          splitOnChar_no_sep _ _ (noSemi_num "COUNT=" (by decide) m)]
      simp only [parseRruleBody, hdata, hsplit, parseRruleParts_eq_bind,
        parseRrulePart_freq, parseRrulePart_interval, parseRrulePart_count,
        Option.some_bind, parseRruleParts_nil]
  · have hunstrip : unstripUntil (stripUntil u).data = some u := by
      rcases hcanon with h | h
      · exact unstrip_strip_date u h
      · exact unstrip_strip_dateTime u h
    rcases hint with rfl | ⟨n, rfl, hn⟩
    · -- no interval, until
      have hbuild : buildRruleString
          ⟨f, none, some (RecurrenceEnd.«until» u), [], [], []⟩
          = "RRULE:" ++ String.intercalate ";"
              ["FREQ=" ++ rruleFreqMap f, "UNTIL=" ++ stripUntil u] := rfl
      rw [hbuild, parseRruleString_append]
      have hdata : (String.intercalate ";"
          ["FREQ=" ++ rruleFreqMap f, "UNTIL=" ++ stripUntil u]).data
          = ("FREQ=" ++ rruleFreqMap f).data
              ++ ';' :: ("UNTIL=" ++ stripUntil u).data := by
        show (("FREQ=" ++ rruleFreqMap f) ++ ";"
          ++ ("UNTIL=" ++ stripUntil u)).data = _
        simp [String.data_append, hsemi]
      have hsplit : splitOnChar ';' (("FREQ=" ++ rruleFreqMap f).data
          ++ ';' :: ("UNTIL=" ++ stripUntil u).data)
          = [("FREQ=" ++ rruleFreqMap f).data,
              ("UNTIL=" ++ stripUntil u).data] := by
        rw [splitOnChar_append _ _ _ (noSemi_freq f),
          splitOnChar_no_sep _ _ (noSemi_until u hcanon)]
      simp only [parseRruleBody, hdata, hsplit, parseRruleParts_eq_bind,
        parseRrulePart_freq, parseRrulePart_until, hunstrip, Option.map_some',
        Option.some_bind, parseRruleParts_nil]
    · -- interval, until
      have hbuild : buildRruleString
          ⟨f, some n, some (RecurrenceEnd.«until» u), [], [], []⟩
          = "RRULE:" ++ String.intercalate ";"
              ["FREQ=" ++ rruleFreqMap f, "INTERVAL=" ++ Nat.repr n,
                "UNTIL=" ++ stripUntil u] := by
        simp [buildRruleString, hn]
      rw [hbuild, parseRruleString_append]
      have hdata : (String.intercalate ";"
          ["FREQ=" ++ rruleFreqMap f, "INTERVAL=" ++ Nat.repr n,
            "UNTIL=" ++ stripUntil u]).data
          = ("FREQ=" ++ rruleFreqMap f).data
              ++ ';' :: (("INTERVAL=" ++ Nat.repr n).data
                ++ ';' :: ("UNTIL=" ++ stripUntil u).data) := by
        show (("FREQ=" ++ rruleFreqMap f) ++ ";" ++ ("INTERVAL=" ++ Nat.repr n)
          ++ ";" ++ ("UNTIL=" ++ stripUntil u)).data = _
        simp [String.data_append, hsemi]
      have hsplit : splitOnChar ';' (("FREQ=" ++ rruleFreqMap f).data
          ++ ';' :: (("INTERVAL=" ++ Nat.repr n).data
            ++ ';' :: ("UNTIL=" ++ stripUntil u).data))
          = [("FREQ=" ++ rruleFreqMap f).data,
              ("INTERVAL=" ++ Nat.repr n).data,
              ("UNTIL=" ++ stripUntil u).data] := by
        rw [splitOnChar_append _ _ _ (noSemi_freq f),
          splitOnChar_append _ _ _ (noSemi_num "INTERVAL=" (by decide) n),
          splitOnChar_no_sep _ _ (noSemi_until u hcanon)]
      simp only [parseRruleBody, hdata, hsplit, parseRruleParts_eq_bind,
        parseRrulePart_freq, parseRrulePart_interval, parseRrulePart_until,
        hunstrip, Option.map_some', Option.some_bind, parseRruleParts_nil]

/-- C4 counterexample: the claim's domain admits a rule with an explicit
`interval = 1`, but the encoder collapses it onto the no-interval encoding
(INTERVAL is emitted only when greater than 1), so no decoder can invert
both; the decode of its encoding returns the rule without the interval
field, not the original rule. -/
theorem rrule_roundtrip_counterexample :
    buildRruleString ⟨.daily, some 1, none, [], [], []⟩
        = buildRruleString ⟨.daily, none, none, [], [], []⟩
    ∧ parseRruleString (buildRruleString ⟨.daily, some 1, none, [], [], []⟩)
        = some ⟨.daily, none, none, [], [], []⟩
    ∧ parseRruleString (buildRruleString ⟨.daily, some 1, none, [], [], []⟩)
        ≠ some ⟨.daily, some 1, none, [], [], []⟩ :=
  ⟨by decide, by decide, by decide⟩

/-- C4 witness: the amended round trip evaluated at a rule with interval 2,
an until termination in canonical date form, and at one with a count
termination. -/
theorem rrule_encode_decode_roundtrip_witness :
    parseRruleString (buildRruleString
        ⟨.weekly, some 2, some (.«until» "2024-12-31"), [], [], []⟩)
      = some ⟨.weekly, some 2, some (.«until» "2024-12-31"), [], [], []⟩
    ∧ parseRruleString (buildRruleString
        ⟨.monthly, none, some (.count 10), [], [], []⟩)
      = some ⟨.monthly, none, some (.count 10), [], [], []⟩ :=
  ⟨rrule_encode_decode_roundtrip.1
      ⟨.weekly, some 2, some (.«until» "2024-12-31"), [], [], []⟩
      rfl rfl rfl (Or.inr ⟨2, rfl, by decide⟩)
      (Or.inr (Or.inr ⟨"2024-12-31", rfl,
        Or.inl ⟨'2', '0', '2', '4', '1', '2', '3', '1', rfl, by decide⟩⟩)),
   rrule_encode_decode_roundtrip.1
      ⟨.monthly, none, some (.count 10), [], [], []⟩
      rfl rfl rfl (Or.inl rfl) (Or.inr (Or.inl ⟨10, rfl⟩))⟩

end Janus
